import Mathlib

/-!
# Verification of the master RPC dispatch and idempotency core

A shallow embedding of `src/curvine-server/src/master/master_handler.rs`
(`MasterHandler` and its `MessageHandler::handle` implementation), together
with models of the collaborators that live outside `src/` (the retry cache,
the RPC context / codec, the facades), which are modelled from the
specification where noted.

The filesystem / mount / worker facades are external collaborators: they are
represented by an oracle (`FsOracle`) that fixes the result of every facade
call as a function of the call's position in the invocation trace, and the
handler state records the trace of facade invocations (`CoreState.calls`), so
that "the facade is invoked at most once" becomes a statement about traces.
-/

set_option autoImplicit false

namespace Curvine

/-- Operation codes recognized by the dispatch match in
`MasterHandler::handle`, plus `Unknown` representing any code outside the
recognized set (the `_` arm of the match). -/
inductive RpcCode where
  | Mkdir
  | CreateFile
  | AppendFile
  | FileStatus
  | AddBlock
  | CompleteFile
  | Exists
  | Delete
  | Rename
  | ListStatus
  | GetBlockLocations
  | SetAttr
  | Symlink
  | Mount
  | UnMount
  | UpdateMount
  | GetMountTable
  | GetMountInfo
  | WorkerHeartbeat
  | WorkerBlockReport
  | GetMasterInfo
  | SubmitLoadJob
  | GetLoadStatus
  | CancelLoadJob
  | ReportLoadTask
  | Unknown (n : Nat)
  deriving DecidableEq, Repr

/-- Error kinds of `FsError` as used by the handler. `notLeader` mirrors
`FsError::not_leader_master(code, client_ip)`, `common` mirrors
`FsError::common` / `err_box!` which carry a message string, and `malformed`
stands for the typed-header decode failure of `RpcContext::parse_header`
(modelled from the spec: the codec is external; §4.A "Fails with `Malformed`
if the payload cannot be decoded"). -/
inductive FsErr where
  | notLeader (code : RpcCode) (clientIp : String)
  | common (msg : String)
  | malformed
  deriving DecidableEq, Repr

/-- `FsResult<T>` of the source. -/
abbrev FsResult (α : Type) := Except FsErr α

/-- `res.is_ok()` on an `FsResult`. -/
def resultIsOk {α : Type} : FsResult α → Bool
  | .ok _ => true
  | .error _ => false

/-- Terminal status of a prior attempt held by the retry cache.
Modelled from the spec: `OperationStatus` lives in `master::fs`, not under
`src/`; §3 "a tagged enum with variants `InProgress`, `Succeeded`,
`Failed`". -/
inductive OperationStatus where
  | inProgress
  | succeeded
  | failed
  deriving DecidableEq, Repr

/-- Modelled from the spec: `FsRetryCache` (in `master::fs`) is not under
`src/`. §4.B describes a bounded map from request id to `OperationStatus`
with FIFO eviction; the claims under verification never exercise the bound,
so the model is the unbounded association list (insertion at the head). -/
abbrev FsRetryCache := List (Int × OperationStatus)

/-- Lookup of a request id in the retry cache (spec §4.B `is_retry`
observation: "absence of an id means no prior observation"). -/
def FsRetryCache.get (c : FsRetryCache) (id : Int) : Option OperationStatus :=
  match c with
  | [] => none
  | e :: t => if e.1 = id then some e.2 else FsRetryCache.get t id

/-- Modelled from the spec: `FsRetryCache::check_is_retry`. §4.B: a mutating
handler either "sees `is_retry == No` and proceeds" — which transitions the
id `absent → InProgress` (invariant (i)) — or "sees `is_retry == Yes(_)` and
short-circuits". The source wraps the result in `FsResult`;
"`is_retry` never fails" (§4.B), so the model returns the bare flag. -/
def FsRetryCache.check_is_retry (c : FsRetryCache) (id : Int) :
    Bool × FsRetryCache :=
  match c.get id with
  | some _ => (true, c)
  | none => (false, (id, OperationStatus.inProgress) :: c)

/-- Modelled from the spec: `FsRetryCache::set_status(id, is_ok)`. §4.B
`record`: "transition the entry for id to a terminal state. If absent,
insert." -/
def FsRetryCache.setStatus (c : FsRetryCache) (id : Int) (isOk : Bool) :
    FsRetryCache :=
  match c with
  | [] => [(id, if isOk then OperationStatus.succeeded else OperationStatus.failed)]
  | e :: t =>
    if e.1 = id then
      (e.1, if isOk then OperationStatus.succeeded else OperationStatus.failed) :: t
    else
      e :: FsRetryCache.setStatus t id isOk

/-- Typed request headers, one per operation, with the fields the handlers
read. Opaque payloads owned by the external codec (options, proto blobs) are
carried as `Nat` tokens. -/
structure MkdirRequest where
  path : String
  opts : Nat
  deriving DecidableEq, Repr

structure CreateFileRequest where
  path : String
  opts : Nat
  deriving DecidableEq, Repr

structure AppendFileRequest where
  path : String
  opts : Nat
  deriving DecidableEq, Repr

structure GetFileStatusRequest where
  path : String
  deriving DecidableEq, Repr

structure ExistsRequest where
  path : String
  deriving DecidableEq, Repr

structure DeleteRequest where
  path : String
  recursive : Bool
  deriving DecidableEq, Repr

structure RenameRequest where
  src : String
  dst : String
  deriving DecidableEq, Repr

structure ListStatusRequest where
  path : String
  deriving DecidableEq, Repr

structure AddBlockRequest where
  path : String
  clientAddress : Nat
  previous : Option Nat
  deriving DecidableEq, Repr

structure CompleteFileRequest where
  path : String
  len : Int
  last : Option Nat
  clientName : String
  deriving DecidableEq, Repr

structure GetBlockLocationsRequest where
  path : String
  deriving DecidableEq, Repr

structure GetMasterInfoRequest where
  deriving DecidableEq, Repr

structure WorkerHeartbeatRequest where
  clusterId : String
  status : Nat
  address : Nat
  storages : Nat
  deriving DecidableEq, Repr

structure BlockReportListRequest where
  list : Nat
  deriving DecidableEq, Repr

structure MountRequest where
  curvinePath : String
  ufsPath : String
  mountOptions : Option Nat
  deriving DecidableEq, Repr

structure UnMountRequest where
  curvinePath : String
  deriving DecidableEq, Repr

structure GetMountPointInfoRequest where
  path : String
  deriving DecidableEq, Repr

structure GetMountTableRequest where
  deriving DecidableEq, Repr

structure SetAttrRequest where
  path : String
  opts : Nat
  deriving DecidableEq, Repr

structure SymlinkRequest where
  target : String
  link : String
  force : Bool
  mode : Nat
  deriving DecidableEq, Repr

/-- The decoded request header carried by an inbound message; the variant is
determined by the operation code (spec §3: each code binds one request header
type). -/
inductive ReqHeader where
  | mkdirReq (r : MkdirRequest)
  | createFileReq (r : CreateFileRequest)
  | appendFileReq (r : AppendFileRequest)
  | getFileStatusReq (r : GetFileStatusRequest)
  | existsReq (r : ExistsRequest)
  | deleteReq (r : DeleteRequest)
  | renameReq (r : RenameRequest)
  | listStatusReq (r : ListStatusRequest)
  | addBlockReq (r : AddBlockRequest)
  | completeFileReq (r : CompleteFileRequest)
  | getBlockLocationsReq (r : GetBlockLocationsRequest)
  | getMasterInfoReq (r : GetMasterInfoRequest)
  | workerHeartbeatReq (r : WorkerHeartbeatRequest)
  | blockReportListReq (r : BlockReportListRequest)
  | mountReq (r : MountRequest)
  | unMountReq (r : UnMountRequest)
  | getMountPointInfoReq (r : GetMountPointInfoRequest)
  | getMountTableReq (r : GetMountTableRequest)
  | setAttrReq (r : SetAttrRequest)
  | symlinkReq (r : SymlinkRequest)
  deriving DecidableEq, Repr

/-- Typed response headers built by the handlers. Results converted by
`ProtoUtils` are opaque `Nat` tokens. Argumentless constructors stand for the
`::default()` responses of the source. -/
inductive RepHeader where
  | mkdirResp (flag : Bool)
  | createFileResp (fileStatus : Nat)
  | getFileStatusResp (status : Nat)
  | existsResp (flag : Bool)
  | deleteResp
  | renameResp (result : Bool)
  | listStatusResp (statuses : List Nat)
  | appendFileResp (fileStatus : Nat) (lastBlock : Option Nat)
  | locatedBlockResp (block : Nat)
  | completeFileResp
  | getBlockLocationsResp (blocks : Nat)
  | masterInfoResp (info : Nat)
  | workerHeartbeatResp (cmds : Nat)
  | blockReportListResp
  | mountResp
  | unMountResp
  | getMountPointInfoResp (mountPoint : Nat)
  | getMountTableResp (mountPoints : Nat)
  | setAttrResp
  | symlinkResp
  deriving DecidableEq, Repr

/-- Body of a message: an inbound request header, an outbound reply header,
or the error payload produced by `msg.error_ext(&e)`. -/
inductive MsgBody where
  | req (h : ReqHeader)
  | rep (h : RepHeader)
  | err (e : FsErr)
  deriving DecidableEq, Repr

/-- The message envelope (spec §3: operation code, 64-bit request id, typed
header). -/
structure Message where
  code : RpcCode
  reqId : Int
  body : MsgBody
  deriving DecidableEq, Repr

/-- `msg.error_ext(&e)`: an error-bearing reply message carrying the original
request id and the error payload (spec §6 "Error replies"). -/
def Message.errorExt (m : Message) (e : FsErr) : Message :=
  { code := m.code, reqId := m.reqId, body := MsgBody.err e }

/-- Audit subject fields of the RPC context — the only part of the context a
handler mutates (via `set_audit`). -/
structure AuditFields where
  primary : Option String
  secondary : Option String

/-- Modelled from the spec: `RpcContext` (in `master`) is not under `src/`.
§4.A: per-request state — the message, the parsed operation code, and the
optional audit subjects. Handlers return their final `AuditFields`; the
`code` and `msg` fields are never written after construction. -/
structure RpcContext where
  msg : Message
  code : RpcCode
  aud : AuditFields

/-- `RpcContext::new(msg)`. -/
def RpcContext.new (m : Message) : RpcContext :=
  { msg := m, code := m.code, aud := { primary := none, secondary := none } }

/-- `ctx.set_audit(primary, secondary)`: overwrites both subject fields
(spec §4.A). -/
def setAudit (p q : Option String) : AuditFields :=
  { primary := p, secondary := q }

/-- `ctx.response(rep_header)`: a reply message carrying the encoded response
header; infallible given a valid header (spec §4.A), returned as `FsResult`
as in the source. -/
def RpcContext.response (ctx : RpcContext) (h : RepHeader) : FsResult Message :=
  Except.ok { code := ctx.msg.code, reqId := ctx.msg.reqId, body := MsgBody.rep h }

/-- `ctx.parse_header::<MkdirRequest>()` — modelled from the spec (§4.A): the
decode succeeds exactly when the payload is of the expected header type. -/
def RpcContext.parseMkdir (ctx : RpcContext) : FsResult MkdirRequest :=
  match ctx.msg.body with
  | .req (.mkdirReq r) => .ok r
  | _ => .error .malformed

def RpcContext.parseCreateFile (ctx : RpcContext) : FsResult CreateFileRequest :=
  match ctx.msg.body with
  | .req (.createFileReq r) => .ok r
  | _ => .error .malformed

def RpcContext.parseAppendFile (ctx : RpcContext) : FsResult AppendFileRequest :=
  match ctx.msg.body with
  | .req (.appendFileReq r) => .ok r
  | _ => .error .malformed

def RpcContext.parseGetFileStatus (ctx : RpcContext) : FsResult GetFileStatusRequest :=
  match ctx.msg.body with
  | .req (.getFileStatusReq r) => .ok r
  | _ => .error .malformed

def RpcContext.parseExists (ctx : RpcContext) : FsResult ExistsRequest :=
  match ctx.msg.body with
  | .req (.existsReq r) => .ok r
  | _ => .error .malformed

def RpcContext.parseDelete (ctx : RpcContext) : FsResult DeleteRequest :=
  match ctx.msg.body with
  | .req (.deleteReq r) => .ok r
  | _ => .error .malformed

def RpcContext.parseRename (ctx : RpcContext) : FsResult RenameRequest :=
  match ctx.msg.body with
  | .req (.renameReq r) => .ok r
  | _ => .error .malformed

def RpcContext.parseListStatus (ctx : RpcContext) : FsResult ListStatusRequest :=
  match ctx.msg.body with
  | .req (.listStatusReq r) => .ok r
  | _ => .error .malformed

def RpcContext.parseAddBlock (ctx : RpcContext) : FsResult AddBlockRequest :=
  match ctx.msg.body with
  | .req (.addBlockReq r) => .ok r
  | _ => .error .malformed

def RpcContext.parseCompleteFile (ctx : RpcContext) : FsResult CompleteFileRequest :=
  match ctx.msg.body with
  | .req (.completeFileReq r) => .ok r
  | _ => .error .malformed

def RpcContext.parseGetBlockLocations (ctx : RpcContext) :
    FsResult GetBlockLocationsRequest :=
  match ctx.msg.body with
  | .req (.getBlockLocationsReq r) => .ok r
  | _ => .error .malformed

def RpcContext.parseGetMasterInfo (ctx : RpcContext) : FsResult GetMasterInfoRequest :=
  match ctx.msg.body with
  | .req (.getMasterInfoReq r) => .ok r
  | _ => .error .malformed

def RpcContext.parseWorkerHeartbeat (ctx : RpcContext) :
    FsResult WorkerHeartbeatRequest :=
  match ctx.msg.body with
  | .req (.workerHeartbeatReq r) => .ok r
  | _ => .error .malformed

def RpcContext.parseBlockReportList (ctx : RpcContext) :
    FsResult BlockReportListRequest :=
  match ctx.msg.body with
  | .req (.blockReportListReq r) => .ok r
  | _ => .error .malformed

def RpcContext.parseMount (ctx : RpcContext) : FsResult MountRequest :=
  match ctx.msg.body with
  | .req (.mountReq r) => .ok r
  | _ => .error .malformed

def RpcContext.parseUnMount (ctx : RpcContext) : FsResult UnMountRequest :=
  match ctx.msg.body with
  | .req (.unMountReq r) => .ok r
  | _ => .error .malformed

def RpcContext.parseGetMountPointInfo (ctx : RpcContext) :
    FsResult GetMountPointInfoRequest :=
  match ctx.msg.body with
  | .req (.getMountPointInfoReq r) => .ok r
  | _ => .error .malformed

def RpcContext.parseGetMountTable (ctx : RpcContext) : FsResult GetMountTableRequest :=
  match ctx.msg.body with
  | .req (.getMountTableReq r) => .ok r
  | _ => .error .malformed

def RpcContext.parseSetAttr (ctx : RpcContext) : FsResult SetAttrRequest :=
  match ctx.msg.body with
  | .req (.setAttrReq r) => .ok r
  | _ => .error .malformed

def RpcContext.parseSymlink (ctx : RpcContext) : FsResult SymlinkRequest :=
  match ctx.msg.body with
  | .req (.symlinkReq r) => .ok r
  | _ => .error .malformed

/-- One invocation of an external facade (`MasterFilesystem`,
`MountManager`, the worker manager), with the arguments the handler passes.
The handler state records the trace of these invocations. -/
inductive FacadeCall where
  | mkdirWithOpts (path : String) (opts : Nat)
  | createWithOpts (path : String) (opts : Nat)
  | fileStatus (path : String)
  | existsQuery (path : String)
  | delete (path : String) (recursive : Bool)
  | rename (src dst : String)
  | setAttr (path : String) (opts : Nat)
  | symlink (target link : String) (force : Bool) (mode : Nat)
  | appendFile (path : String) (opts : Nat)
  | addBlock (path : String) (clientAddr : Nat) (previous : Option Nat)
  | completeFile (path : String) (len : Int) (last : Option Nat) (clientName : String)
  | listStatus (path : String)
  | getBlockLocations (path : String)
  | masterInfo
  | heartbeat (clusterId : String) (status : Nat) (address : Nat) (storages : Nat)
  | blockReport (list : Nat)
  | mount (curvine ufs : String) (opts : Nat)
  | umount (path : String)
  | getMountPoint (path : String)
  | getMountTable
  deriving DecidableEq, Repr

/-- Oracle fixing the outcome of every facade call, as a function of the
position of the call in the invocation trace (first argument) and of the
call's arguments. The facades are external collaborators (spec §1), so their
results are unconstrained; indexing by trace position lets a re-query return
a different answer than an earlier one. `FileStatus`, blocks, worker
commands, mount points etc. are opaque `Nat` tokens. -/
structure FsOracle where
  mkdirR : Nat → String → Nat → FsResult Bool
  createR : Nat → String → Nat → FsResult Nat
  statusR : Nat → String → FsResult Nat
  existsR : Nat → String → FsResult Bool
  deleteR : Nat → String → Bool → FsResult Bool
  renameR : Nat → String → String → FsResult Bool
  setAttrR : Nat → String → Nat → FsResult Unit
  symlinkR : Nat → String → String → Bool → Nat → FsResult Unit
  appendR : Nat → String → Nat → FsResult (Option Nat × Nat)
  addBlockR : Nat → String → Nat → Option Nat → FsResult Nat
  completeR : Nat → String → Int → Option Nat → String → FsResult Unit
  listStatusR : Nat → String → FsResult (List Nat)
  blockLocR : Nat → String → FsResult Nat
  masterInfoR : Nat → FsResult Nat
  heartbeatR : Nat → String → Nat → Nat → Nat → FsResult Nat
  blockReportR : Nat → Nat → FsResult Unit
  mountR : Nat → String → String → Nat → FsResult Unit
  umountR : Nat → String → FsResult Unit
  mountPointR : Nat → String → FsResult Nat
  mountTableR : Nat → FsResult Nat
  curvineUriNew : String → FsResult String
  pathFromStr : String → FsResult String

/-- The handler-visible mutable state of `MasterHandler`: the facade
invocation trace (standing for the external `fs` / mount / worker state) and
the optional retry cache (`retry_cache: Option<FsRetryCache>`). Metrics and
the audit log live in `HState`; the handler methods of the source never
touch them. -/
structure CoreState where
  calls : List FacadeCall
  retryCache : Option FsRetryCache

/-- Record one facade invocation in the trace. -/
def CoreState.push (core : CoreState) (c : FacadeCall) : CoreState :=
  { core with calls := core.calls ++ [c] }

/-- `self.fs.mkdir_with_opts(path, opts)`. -/
def fsMkdirWithOpts (ora : FsOracle) (core : CoreState) (path : String) (opts : Nat) :
    FsResult Bool × CoreState :=
  (ora.mkdirR core.calls.length path opts, core.push (.mkdirWithOpts path opts))

/-- `self.fs.create_with_opts(path, opts)`. -/
def fsCreateWithOpts (ora : FsOracle) (core : CoreState) (path : String) (opts : Nat) :
    FsResult Nat × CoreState :=
  (ora.createR core.calls.length path opts, core.push (.createWithOpts path opts))

/-- `self.fs.file_status(path)`. -/
def fsFileStatus (ora : FsOracle) (core : CoreState) (path : String) :
    FsResult Nat × CoreState :=
  (ora.statusR core.calls.length path, core.push (.fileStatus path))

/-- `self.fs.exists(path)`. -/
def fsExists (ora : FsOracle) (core : CoreState) (path : String) :
    FsResult Bool × CoreState :=
  (ora.existsR core.calls.length path, core.push (.existsQuery path))

/-- `self.fs.delete(path, recursive)`. -/
def fsDelete (ora : FsOracle) (core : CoreState) (path : String) (recursive : Bool) :
    FsResult Bool × CoreState :=
  (ora.deleteR core.calls.length path recursive, core.push (.delete path recursive))

/-- `self.fs.rename(src, dst)`. -/
def fsRename (ora : FsOracle) (core : CoreState) (src dst : String) :
    FsResult Bool × CoreState :=
  (ora.renameR core.calls.length src dst, core.push (.rename src dst))

/-- `self.fs.set_attr(path, opts)`. -/
def fsSetAttr (ora : FsOracle) (core : CoreState) (path : String) (opts : Nat) :
    FsResult Unit × CoreState :=
  (ora.setAttrR core.calls.length path opts, core.push (.setAttr path opts))

/-- `self.fs.symlink(target, link, force, mode)`. -/
def fsSymlink (ora : FsOracle) (core : CoreState) (target link : String)
    (force : Bool) (mode : Nat) : FsResult Unit × CoreState :=
  (ora.symlinkR core.calls.length target link force mode,
    core.push (.symlink target link force mode))

/-- `self.fs.append_file(path, opts)`, returning `(last_block, status)`. -/
def fsAppendFile (ora : FsOracle) (core : CoreState) (path : String) (opts : Nat) :
    FsResult (Option Nat × Nat) × CoreState :=
  (ora.appendR core.calls.length path opts, core.push (.appendFile path opts))

/-- `self.fs.add_block(path, client_addr, previous, vec![])` (the trailing
empty exclusion list is a constant and is not recorded). -/
def fsAddBlock (ora : FsOracle) (core : CoreState) (path : String)
    (clientAddr : Nat) (previous : Option Nat) : FsResult Nat × CoreState :=
  (ora.addBlockR core.calls.length path clientAddr previous,
    core.push (.addBlock path clientAddr previous))

/-- `self.fs.complete_file(path, len, last, client_name)`. -/
def fsCompleteFile (ora : FsOracle) (core : CoreState) (path : String) (len : Int)
    (last : Option Nat) (clientName : String) : FsResult Unit × CoreState :=
  (ora.completeR core.calls.length path len last clientName,
    core.push (.completeFile path len last clientName))

/-- `self.fs.list_status(path)`. -/
def fsListStatus (ora : FsOracle) (core : CoreState) (path : String) :
    FsResult (List Nat) × CoreState :=
  (ora.listStatusR core.calls.length path, core.push (.listStatus path))

/-- `self.fs.get_block_locations(path)`. -/
def fsGetBlockLocations (ora : FsOracle) (core : CoreState) (path : String) :
    FsResult Nat × CoreState :=
  (ora.blockLocR core.calls.length path, core.push (.getBlockLocations path))

/-- `self.fs.master_info()`. -/
def fsMasterInfo (ora : FsOracle) (core : CoreState) : FsResult Nat × CoreState :=
  (ora.masterInfoR core.calls.length, core.push .masterInfo)

/-- `wm.heartbeat(cluster_id, status, address, storages)` under the worker
write lock. -/
def wmHeartbeat (ora : FsOracle) (core : CoreState) (clusterId : String)
    (status address storages : Nat) : FsResult Nat × CoreState :=
  (ora.heartbeatR core.calls.length clusterId status address storages,
    core.push (.heartbeat clusterId status address storages))

/-- `self.fs.block_report(list)`. -/
def fsBlockReport (ora : FsOracle) (core : CoreState) (list : Nat) :
    FsResult Unit × CoreState :=
  (ora.blockReportR core.calls.length list, core.push (.blockReport list))

/-- `self.mount_manager.mount(None, curvine_uri, ufs_uri, mnt_opt)`. -/
def mmMount (ora : FsOracle) (core : CoreState) (curvine ufs : String) (opts : Nat) :
    FsResult Unit × CoreState :=
  (ora.mountR core.calls.length curvine ufs opts, core.push (.mount curvine ufs opts))

/-- `self.mount_manager.umount(mnt_path)`. -/
def mmUmount (ora : FsOracle) (core : CoreState) (path : String) :
    FsResult Unit × CoreState :=
  (ora.umountR core.calls.length path, core.push (.umount path))

/-- `self.mount_manager.get_mount_point(path)`. -/
def mmGetMountPoint (ora : FsOracle) (core : CoreState) (path : String) :
    FsResult Nat × CoreState :=
  (ora.mountPointR core.calls.length path, core.push (.getMountPoint path))

/-- `self.mount_manager.get_mount_table()`. -/
def mmGetMountTable (ora : FsOracle) (core : CoreState) : FsResult Nat × CoreState :=
  (ora.mountTableR core.calls.length, core.push .getMountTable)

/-- `ProtoUtils` conversions between wire payloads and facade types. The
codec is external (spec §1 out of scope); the conversions are modelled as
the identity on opaque tokens. -/
def ProtoUtils.mkdirOptsFromPb (o : Nat) : Nat := o

def ProtoUtils.createOptsFromPb (o : Nat) : Nat := o

def ProtoUtils.fileStatusToPb (st : Nat) : Nat := st

def ProtoUtils.setAttrOptsFromPb (o : Nat) : Nat := o

def ProtoUtils.locatedBlockToPb (b : Nat) : Nat := b

def ProtoUtils.commitBlockFromPb (b : Nat) : Nat := b

def ProtoUtils.clientAddressFromPb (a : Nat) : Nat := a

def ProtoUtils.fileBlocksToPb (b : Nat) : Nat := b

def ProtoUtils.masterInfoToPb (i : Nat) : Nat := i

def ProtoUtils.workerAddressFromPb (a : Nat) : Nat := a

def ProtoUtils.storageInfoListFromPb (s : Nat) : Nat := s

def ProtoUtils.workerCmdToPb (c : Nat) : Nat := c

def ProtoUtils.blockReportListFromPb (r : BlockReportListRequest) : Nat := r.list

/-- `MasterHandler::get_req_cache`: consult the optional retry cache; `None`
when the handler was constructed without one. -/
def MasterHandler.get_req_cache (core : CoreState) (id : Int) : Option OperationStatus :=
  match core.retryCache with
  | some c => FsRetryCache.get c id
  | none => none

/-- `MasterHandler::set_req_cache::<T>(id, res)`: record the terminal outcome
`res.is_ok()` in the retry cache when present, and return `res` unchanged. -/
def MasterHandler.set_req_cache {α : Type} (core : CoreState) (id : Int)
    (res : FsResult α) : FsResult α × CoreState :=
  match core.retryCache with
  | some c =>
    (res, { core with retryCache := some (FsRetryCache.setStatus c id (resultIsOk res)) })
  | none => (res, core)

/-- `MasterHandler::check_is_retry(id)`: `Ok(false)` when the handler has no
retry cache, otherwise the cache's answer (the cache query never fails,
spec §4.B). -/
def MasterHandler.check_is_retry (core : CoreState) (id : Int) : Bool × CoreState :=
  match core.retryCache with
  | some c =>
    match FsRetryCache.check_is_retry c id with
    | (b, c2) => (b, { core with retryCache := some c2 })
  | none => (false, core)

/-- Outcome of one handler method: the `FsResult<Message>`, the final audit
subject fields of the context, and the handler state. -/
abbrev HandlerOut := FsResult Message × AuditFields × CoreState

/-- `MasterHandler::mkdir`. -/
def MasterHandler.mkdir (ora : FsOracle) (core : CoreState) (ctx : RpcContext) :
    HandlerOut :=
  match ctx.parseMkdir with
  | .error e => (.error e, ctx.aud, core)
  | .ok header =>
    let aud := setAudit (some header.path) none
    let opts := ProtoUtils.mkdirOptsFromPb header.opts
    match fsMkdirWithOpts ora core header.path opts with
    | (.error e, core2) => (.error e, aud, core2)
    | (.ok flag, core2) => (ctx.response (RepHeader.mkdirResp flag), aud, core2)

/-- `MasterHandler::create_file0(req_id, path, opts)`: on a retry, re-query
the current file status; otherwise create and record the outcome. -/
def MasterHandler.create_file0 (ora : FsOracle) (core : CoreState) (reqId : Int)
    (path : String) (opts : Nat) : FsResult Nat × CoreState :=
  match MasterHandler.check_is_retry core reqId with
  | (true, core2) => fsFileStatus ora core2 path
  | (false, core2) =>
    match fsCreateWithOpts ora core2 path opts with
    | (res, core3) => MasterHandler.set_req_cache core3 reqId res

/-- `MasterHandler::retry_check_create_file`. -/
def MasterHandler.retry_check_create_file (ora : FsOracle) (core : CoreState)
    (ctx : RpcContext) : HandlerOut :=
  match ctx.parseCreateFile with
  | .error e => (.error e, ctx.aud, core)
  | .ok header =>
    let aud := setAudit (some header.path) none
    let opts := ProtoUtils.createOptsFromPb header.opts
    match MasterHandler.create_file0 ora core ctx.msg.reqId header.path opts with
    | (.error e, core2) => (.error e, aud, core2)
    | (.ok status, core2) =>
      (ctx.response (RepHeader.createFileResp (ProtoUtils.fileStatusToPb status)),
        aud, core2)

/-- `MasterHandler::file_status`. -/
def MasterHandler.file_status (ora : FsOracle) (core : CoreState)
    (ctx : RpcContext) : HandlerOut :=
  match ctx.parseGetFileStatus with
  | .error e => (.error e, ctx.aud, core)
  | .ok header =>
    let aud := setAudit (some header.path) none
    match fsFileStatus ora core header.path with
    | (.error e, core2) => (.error e, aud, core2)
    | (.ok status, core2) =>
      (ctx.response (RepHeader.getFileStatusResp (ProtoUtils.fileStatusToPb status)),
        aud, core2)

/-- `MasterHandler::exists` (named `exists0` here because `exists` is a Lean
keyword). -/
def MasterHandler.exists0 (ora : FsOracle) (core : CoreState)
    (ctx : RpcContext) : HandlerOut :=
  match ctx.parseExists with
  | .error e => (.error e, ctx.aud, core)
  | .ok header =>
    let aud := setAudit (some header.path) none
    match fsExists ora core header.path with
    | (.error e, core2) => (.error e, aud, core2)
    | (.ok flag, core2) => (ctx.response (RepHeader.existsResp flag), aud, core2)

/-- `MasterHandler::delete0(req_id, header)`: on a retry, assert success
without re-invoking the facade; otherwise delete and record the outcome. -/
def MasterHandler.delete0 (ora : FsOracle) (core : CoreState) (reqId : Int)
    (header : DeleteRequest) : FsResult Bool × CoreState :=
  match MasterHandler.check_is_retry core reqId with
  | (true, core2) => (.ok true, core2)
  | (false, core2) =>
    match fsDelete ora core2 header.path header.recursive with
    | (res, core3) => MasterHandler.set_req_cache core3 reqId res

/-- `MasterHandler::retry_check_delete`. -/
def MasterHandler.retry_check_delete (ora : FsOracle) (core : CoreState)
    (ctx : RpcContext) : HandlerOut :=
  match ctx.parseDelete with
  | .error e => (.error e, ctx.aud, core)
  | .ok header =>
    let aud := setAudit (some header.path) none
    match MasterHandler.delete0 ora core ctx.msg.reqId header with
    | (.error e, core2) => (.error e, aud, core2)
    | (.ok _, core2) => (ctx.response RepHeader.deleteResp, aud, core2)

/-- `MasterHandler::rename0(req_id, header)`. -/
def MasterHandler.rename0 (ora : FsOracle) (core : CoreState) (reqId : Int)
    (header : RenameRequest) : FsResult Bool × CoreState :=
  match MasterHandler.check_is_retry core reqId with
  | (true, core2) => (.ok true, core2)
  | (false, core2) =>
    match fsRename ora core2 header.src header.dst with
    | (res, core3) => MasterHandler.set_req_cache core3 reqId res

/-- `MasterHandler::retry_check_rename`. -/
def MasterHandler.retry_check_rename (ora : FsOracle) (core : CoreState)
    (ctx : RpcContext) : HandlerOut :=
  match ctx.parseRename with
  | .error e => (.error e, ctx.aud, core)
  | .ok header =>
    let aud := setAudit (some header.src) (some header.dst)
    match MasterHandler.rename0 ora core ctx.msg.reqId header with
    | (.error e, core2) => (.error e, aud, core2)
    | (.ok result, core2) => (ctx.response (RepHeader.renameResp result), aud, core2)

/-- `MasterHandler::list_status`. -/
def MasterHandler.list_status (ora : FsOracle) (core : CoreState)
    (ctx : RpcContext) : HandlerOut :=
  match ctx.parseListStatus with
  | .error e => (.error e, ctx.aud, core)
  | .ok header =>
    let aud := setAudit (some header.path) none
    match fsListStatus ora core header.path with
    | (.error e, core2) => (.error e, aud, core2)
    | (.ok list, core2) =>
      (ctx.response (RepHeader.listStatusResp (list.map ProtoUtils.fileStatusToPb)),
        aud, core2)

/-- `MasterHandler::add_block` (the facade performs its own retry
detection). -/
def MasterHandler.add_block (ora : FsOracle) (core : CoreState)
    (ctx : RpcContext) : HandlerOut :=
  match ctx.parseAddBlock with
  | .error e => (.error e, ctx.aud, core)
  | .ok req =>
    let aud := setAudit (some req.path) none
    let clientAddr := ProtoUtils.clientAddressFromPb req.clientAddress
    let previous := req.previous.map ProtoUtils.commitBlockFromPb
    match fsAddBlock ora core req.path clientAddr previous with
    | (.error e, core2) => (.error e, aud, core2)
    | (.ok locatedBlock, core2) =>
      (ctx.response (RepHeader.locatedBlockResp (ProtoUtils.locatedBlockToPb locatedBlock)),
        aud, core2)

/-- `MasterHandler::complete_file` (the facade performs its own retry
detection). -/
def MasterHandler.complete_file (ora : FsOracle) (core : CoreState)
    (ctx : RpcContext) : HandlerOut :=
  match ctx.parseCompleteFile with
  | .error e => (.error e, ctx.aud, core)
  | .ok req =>
    let aud := setAudit (some req.path) none
    let last := req.last.map ProtoUtils.commitBlockFromPb
    match fsCompleteFile ora core req.path req.len last req.clientName with
    | (.error e, core2) => (.error e, aud, core2)
    | (.ok _, core2) => (ctx.response RepHeader.completeFileResp, aud, core2)

/-- `MasterHandler::retry_check_append_file`: a retry is rejected with
`err_box!("append {} repeat request", req.path)`; on a first attempt the
error of `append_file` escapes through `?` before `set_req_cache` runs. -/
def MasterHandler.retry_check_append_file (ora : FsOracle) (core : CoreState)
    (ctx : RpcContext) : HandlerOut :=
  match ctx.parseAppendFile with
  | .error e => (.error e, ctx.aud, core)
  | .ok req =>
    let opts := ProtoUtils.createOptsFromPb req.opts
    let aud := setAudit (some req.path) none
    match MasterHandler.check_is_retry core ctx.msg.reqId with
    | (true, core2) =>
      (.error (FsErr.common ("append " ++ req.path ++ " repeat request")), aud, core2)
    | (false, core2) =>
      match fsAppendFile ora core2 req.path opts with
      | (.error e, core3) => (.error e, aud, core3)
      | (.ok (lastBlock, status), core3) =>
        let res := ctx.response
          (RepHeader.appendFileResp (ProtoUtils.fileStatusToPb status)
            (lastBlock.map ProtoUtils.locatedBlockToPb))
        match MasterHandler.set_req_cache core3 ctx.msg.reqId res with
        | (res2, core4) => (res2, aud, core4)

/-- `MasterHandler::get_block_locations`. -/
def MasterHandler.get_block_locations (ora : FsOracle) (core : CoreState)
    (ctx : RpcContext) : HandlerOut :=
  match ctx.parseGetBlockLocations with
  | .error e => (.error e, ctx.aud, core)
  | .ok req =>
    let aud := setAudit (some req.path) none
    match fsGetBlockLocations ora core req.path with
    | (.error e, core2) => (.error e, aud, core2)
    | (.ok blocks, core2) =>
      (ctx.response (RepHeader.getBlockLocationsResp (ProtoUtils.fileBlocksToPb blocks)),
        aud, core2)

/-- `MasterHandler::get_master_info` (parses the header, sets no audit
subject). -/
def MasterHandler.get_master_info (ora : FsOracle) (core : CoreState)
    (ctx : RpcContext) : HandlerOut :=
  match ctx.parseGetMasterInfo with
  | .error e => (.error e, ctx.aud, core)
  | .ok _ =>
    match fsMasterInfo ora core with
    | (.error e, core2) => (.error e, ctx.aud, core2)
    | (.ok info, core2) =>
      (ctx.response (RepHeader.masterInfoResp (ProtoUtils.masterInfoToPb info)),
        ctx.aud, core2)

/-- `MasterHandler::worker_heartbeat` (no audit subject; the worker write
lock is released before the reply is built — lock discipline is outside this
sequential model). -/
def MasterHandler.worker_heartbeat (ora : FsOracle) (core : CoreState)
    (ctx : RpcContext) : HandlerOut :=
  match ctx.parseWorkerHeartbeat with
  | .error e => (.error e, ctx.aud, core)
  | .ok header =>
    match wmHeartbeat ora core header.clusterId header.status
        (ProtoUtils.workerAddressFromPb header.address)
        (ProtoUtils.storageInfoListFromPb header.storages) with
    | (.error e, core2) => (.error e, ctx.aud, core2)
    | (.ok cmds, core2) =>
      (ctx.response (RepHeader.workerHeartbeatResp (ProtoUtils.workerCmdToPb cmds)),
        ctx.aud, core2)

/-- `MasterHandler::block_report` (no audit subject). -/
def MasterHandler.block_report (ora : FsOracle) (core : CoreState)
    (ctx : RpcContext) : HandlerOut :=
  match ctx.parseBlockReportList with
  | .error e => (.error e, ctx.aud, core)
  | .ok header =>
    let list := ProtoUtils.blockReportListFromPb header
    match fsBlockReport ora core list with
    | (.error e, core2) => (.error e, ctx.aud, core2)
    | (.ok _, core2) => (ctx.response RepHeader.blockReportListResp, ctx.aud, core2)

/-- `MasterHandler::client_ip`: the remote hostname from the connection
state, or the empty string. -/
def MasterHandler.client_ip (conn : Option String) : String :=
  match conn with
  | none => ""
  | some v => v

/-- `MasterHandler::mount` (`CurvineURI::new` may fail; the mount options
default when absent). -/
def MasterHandler.mount (ora : FsOracle) (core : CoreState)
    (ctx : RpcContext) : HandlerOut :=
  match ctx.parseMount with
  | .error e => (.error e, ctx.aud, core)
  | .ok request =>
    match ora.curvineUriNew request.curvinePath with
    | .error e => (.error e, ctx.aud, core)
    | .ok curvineUri =>
      match ora.curvineUriNew request.ufsPath with
      | .error e => (.error e, ctx.aud, core)
      | .ok ufsUri =>
        let mntOpt := request.mountOptions.getD 0
        match mmMount ora core curvineUri ufsUri mntOpt with
        | (.error e, core2) => (.error e, ctx.aud, core2)
        | (.ok _, core2) => (ctx.response RepHeader.mountResp, ctx.aud, core2)

/-- `MasterHandler::update_mount`: a stub that answers a default
`MountResponse` without parsing or side effects. -/
def MasterHandler.update_mount (core : CoreState) (ctx : RpcContext) : HandlerOut :=
  (ctx.response RepHeader.mountResp, ctx.aud, core)

/-- `MasterHandler::umount`. -/
def MasterHandler.umount (ora : FsOracle) (core : CoreState)
    (ctx : RpcContext) : HandlerOut :=
  match ctx.parseUnMount with
  | .error e => (.error e, ctx.aud, core)
  | .ok request =>
    match ora.curvineUriNew request.curvinePath with
    | .error e => (.error e, ctx.aud, core)
    | .ok mntPath =>
      match mmUmount ora core mntPath with
      | (.error e, core2) => (.error e, ctx.aud, core2)
      | (.ok _, core2) => (ctx.response RepHeader.unMountResp, ctx.aud, core2)

/-- `MasterHandler::get_mount_point`. -/
def MasterHandler.get_mount_point (ora : FsOracle) (core : CoreState)
    (ctx : RpcContext) : HandlerOut :=
  match ctx.parseGetMountPointInfo with
  | .error e => (.error e, ctx.aud, core)
  | .ok request =>
    let aud := setAudit (some request.path) none
    match ora.pathFromStr request.path with
    | .error e => (.error e, aud, core)
    | .ok path =>
      match mmGetMountPoint ora core path with
      | (.error e, core2) => (.error e, aud, core2)
      | (.ok ret, core2) =>
        (ctx.response (RepHeader.getMountPointInfoResp ret), aud, core2)

/-- `MasterHandler::get_mount_table`. -/
def MasterHandler.get_mount_table (ora : FsOracle) (core : CoreState)
    (ctx : RpcContext) : HandlerOut :=
  match ctx.parseGetMountTable with
  | .error e => (.error e, ctx.aud, core)
  | .ok _ =>
    match mmGetMountTable ora core with
    | (.error e, core2) => (.error e, ctx.aud, core2)
    | (.ok mountPoints, core2) =>
      (ctx.response (RepHeader.getMountTableResp mountPoints), ctx.aud, core2)

/-- `MasterHandler::set_attr_retry_check`: the retry check runs before
header parsing, and the handler never sets an audit subject. -/
def MasterHandler.set_attr_retry_check (ora : FsOracle) (core : CoreState)
    (ctx : RpcContext) : HandlerOut :=
  match MasterHandler.check_is_retry core ctx.msg.reqId with
  | (true, core2) => (ctx.response RepHeader.setAttrResp, ctx.aud, core2)
  | (false, core2) =>
    match ctx.parseSetAttr with
    | .error e => (.error e, ctx.aud, core2)
    | .ok header =>
      let opts := ProtoUtils.setAttrOptsFromPb header.opts
      match fsSetAttr ora core2 header.path opts with
      | (.error e, core3) => (.error e, ctx.aud, core3)
      | (.ok _, core3) => (ctx.response RepHeader.setAttrResp, ctx.aud, core3)

/-- `MasterHandler::symlink_retry_check`: parse, set audit subjects, then
either assert success on a retry or create the symlink. -/
def MasterHandler.symlink_retry_check (ora : FsOracle) (core : CoreState)
    (ctx : RpcContext) : HandlerOut :=
  match ctx.parseSymlink with
  | .error e => (.error e, ctx.aud, core)
  | .ok header =>
    let aud := setAudit (some header.target) (some header.link)
    match MasterHandler.check_is_retry core ctx.msg.reqId with
    | (true, core2) => (ctx.response RepHeader.symlinkResp, aud, core2)
    | (false, core2) =>
      match fsSymlink ora core2 header.target header.link header.force header.mode with
      | (.error e, core3) => (.error e, aud, core3)
      | (.ok _, core3) => (ctx.response RepHeader.symlinkResp, aud, core3)

/-- The four load-job codes routed to the load sub-service (the first group
of arms of the dispatch match). -/
def isLoadCode : RpcCode → Bool
  | .SubmitLoadJob => true
  | .GetLoadStatus => true
  | .CancelLoadJob => true
  | .ReportLoadTask => true
  | _ => false

/-- `format!("{:?}", ctx.code)` — the metrics label is the stringified
operation code (spec §6). The label of an unrecognized code is modelled from
the spec (§8 S7 "metric label is the stringified unknown code"). -/
def codeLabel : RpcCode → String
  | .Mkdir => "Mkdir"
  | .CreateFile => "CreateFile"
  | .AppendFile => "AppendFile"
  | .FileStatus => "FileStatus"
  | .AddBlock => "AddBlock"
  | .CompleteFile => "CompleteFile"
  | .Exists => "Exists"
  | .Delete => "Delete"
  | .Rename => "Rename"
  | .ListStatus => "ListStatus"
  | .GetBlockLocations => "GetBlockLocations"
  | .SetAttr => "SetAttr"
  | .Symlink => "Symlink"
  | .Mount => "Mount"
  | .UnMount => "UnMount"
  | .UpdateMount => "UpdateMount"
  | .GetMountTable => "GetMountTable"
  | .GetMountInfo => "GetMountInfo"
  | .WorkerHeartbeat => "WorkerHeartbeat"
  | .WorkerBlockReport => "WorkerBlockReport"
  | .GetMasterInfo => "GetMasterInfo"
  | .SubmitLoadJob => "SubmitLoadJob"
  | .GetLoadStatus => "GetLoadStatus"
  | .CancelLoadJob => "CancelLoadJob"
  | .ReportLoadTask => "ReportLoadTask"
  | .Unknown n => "Unknown" ++ toString n

/-- One audit record (modelled from the spec §3: code label, subject
path(s), remote client address or empty string, success flag, elapsed
microseconds; the wall-clock timestamp carries no information in this
model and is omitted). -/
structure AuditRecord where
  code : RpcCode
  primary : Option String
  secondary : Option String
  success : Bool
  usedUs : Nat
  clientAddr : String
  deriving DecidableEq, Repr

/-- `ctx.audit_log(response.is_ok(), used_us, conn_state)` — the record it
emits. -/
def auditRecord (ctx : RpcContext) (aud : AuditFields) (response : FsResult Message)
    (usedUs : Nat) (conn : Option String) : AuditRecord :=
  { code := ctx.code, primary := aud.primary, secondary := aud.secondary,
    success := resultIsOk response, usedUs := usedUs,
    clientAddr := MasterHandler.client_ip conn }

/-- `counter_vec.with_label_values(&[label]).inc_by(d)`: bump a labeled
counter by `d`. -/
def bumpAt (f : String → Nat) (label : String) (d : Nat) : String → Nat :=
  fun l => if l = label then f l + d else f l

/-- The full dispatcher state: the handler-visible `CoreState` plus the
metrics counter vectors (`rpc_request_time`, `rpc_request_count`, labeled by
the stringified code) and the audit log (most recent record first). -/
structure HState where
  core : CoreState
  timeMetric : String → Nat
  countMetric : String → Nat
  auditLog : List AuditRecord

/-- The immutable collaborators of `MasterHandler`: the facade oracle, the
active-master oracle (`master_monitor.is_active()`), the
`audit_logging_enabled` flag, the connection state (remote hostname), and
the optional load sub-service, modelled as a function from the forwarded
message to its reply (`MasterLoadService::handle`). -/
structure Config where
  oracle : FsOracle
  active : Bool
  auditEnabled : Bool
  connState : Option String
  loadService : Option (Message → FsResult Message)

/-- The dispatch match of `MasterHandler::handle` (lines 391-432): operation
code to handler. The four load codes are intercepted by `handle` before this
match (their arms `return` early in the source); the `Unknown` arm is the
`_ => err_box!("Unsupported operation")` arm. -/
def MasterHandler.dispatchCode (ora : FsOracle) (core : CoreState)
    (ctx : RpcContext) : RpcCode → HandlerOut
  | .Mkdir => MasterHandler.mkdir ora core ctx
  | .CreateFile => MasterHandler.retry_check_create_file ora core ctx
  | .AppendFile => MasterHandler.retry_check_append_file ora core ctx
  | .FileStatus => MasterHandler.file_status ora core ctx
  | .AddBlock => MasterHandler.add_block ora core ctx
  | .CompleteFile => MasterHandler.complete_file ora core ctx
  | .Exists => MasterHandler.exists0 ora core ctx
  | .Delete => MasterHandler.retry_check_delete ora core ctx
  | .Rename => MasterHandler.retry_check_rename ora core ctx
  | .ListStatus => MasterHandler.list_status ora core ctx
  | .GetBlockLocations => MasterHandler.get_block_locations ora core ctx
  | .SetAttr => MasterHandler.set_attr_retry_check ora core ctx
  | .Symlink => MasterHandler.symlink_retry_check ora core ctx
  | .Mount => MasterHandler.mount ora core ctx
  | .UnMount => MasterHandler.umount ora core ctx
  | .UpdateMount => MasterHandler.update_mount core ctx
  | .GetMountTable => MasterHandler.get_mount_table ora core ctx
  | .GetMountInfo => MasterHandler.get_mount_point ora core ctx
  | .WorkerHeartbeat => MasterHandler.worker_heartbeat ora core ctx
  | .WorkerBlockReport => MasterHandler.block_report ora core ctx
  | .GetMasterInfo => MasterHandler.get_master_info ora core ctx
  | .SubmitLoadJob => (.error (FsErr.common "Unsupported operation"), ctx.aud, core)
  | .GetLoadStatus => (.error (FsErr.common "Unsupported operation"), ctx.aud, core)
  | .CancelLoadJob => (.error (FsErr.common "Unsupported operation"), ctx.aud, core)
  | .ReportLoadTask => (.error (FsErr.common "Unsupported operation"), ctx.aud, core)
  | .Unknown _ => (.error (FsErr.common "Unsupported operation"), ctx.aud, core)

/-- `MessageHandler::handle for MasterHandler`: build the context, gate on
the active-master oracle, route load codes to the load sub-service (both of
these paths `return` directly, skipping post-processing), otherwise dispatch
the code, then record the audit record and the per-code time/count metrics
and shape any handler error into an error-bearing reply. `usedUs` stands for
`ctx.spent.used_us()`, the elapsed wall-clock microseconds, which are an
input of this model. -/
def MasterHandler.handle (cfg : Config) (s : HState) (m : Message) (usedUs : Nat) :
    FsResult Message × HState :=
  let ctx := RpcContext.new m
  if !cfg.active then
    (.error (FsErr.notLeader ctx.code (MasterHandler.client_ip cfg.connState)), s)
  else if isLoadCode m.code then
    match cfg.loadService with
    | some ls => (ls m, s)
    | none => (.error (FsErr.common "Load service not initialized"), s)
  else
    let out := MasterHandler.dispatchCode cfg.oracle s.core ctx m.code
    let response := out.1
    let aud := out.2.1
    let core := out.2.2
    let label := codeLabel ctx.code
    let auditLog :=
      if cfg.auditEnabled then
        auditRecord ctx aud response usedUs cfg.connState :: s.auditLog
      else s.auditLog
    let timeMetric := bumpAt s.timeMetric label usedUs
    let countMetric := bumpAt s.countMetric label 1
    let result :=
      match response with
      | .ok v => Except.ok v
      | .error e => Except.ok (m.errorExt e)
    (result, { core := core, timeMetric := timeMetric,
               countMetric := countMetric, auditLog := auditLog })

/-- Fold `handle` over a list of (message, elapsed-time) pairs, keeping the
final state. -/
def dispatchAll (cfg : Config) (s : HState) : List (Message × Nat) → HState
  | [] => s
  | (m, u) :: t => dispatchAll cfg (MasterHandler.handle cfg s m u).2 t

/-- Sum of a labeled counter vector over a list of labels. -/
def sumOver (L : List String) (f : String → Nat) : Nat :=
  (L.map f).sum

/-- Whether a facade call is the mutating call belonging to the given
operation code. -/
def isMutCallOf : RpcCode → FacadeCall → Bool
  | .CreateFile, .createWithOpts _ _ => true
  | .AppendFile, .appendFile _ _ => true
  | .Delete, .delete _ _ => true
  | .Rename, .rename _ _ => true
  | .SetAttr, .setAttr _ _ => true
  | .Symlink, .symlink _ _ _ _ => true
  | _, _ => false

/-- Number of invocations of the mutating facade call of a given operation
code in a trace. -/
def mutCount (code : RpcCode) (calls : List FacadeCall) : Nat :=
  (calls.filter (fun c => isMutCallOf code c)).length

/-- A message of one of the four success-assert operations (`Delete`,
`Rename`, `SetAttr`, `Symlink`), carrying the request header its handler
expects. -/
def saWellFormed (m : Message) : Prop :=
  (m.code = RpcCode.Delete ∧ ∃ r, m.body = MsgBody.req (ReqHeader.deleteReq r))
  ∨ (m.code = RpcCode.Rename ∧ ∃ r, m.body = MsgBody.req (ReqHeader.renameReq r))
  ∨ (m.code = RpcCode.SetAttr ∧ ∃ r, m.body = MsgBody.req (ReqHeader.setAttrReq r))
  ∨ (m.code = RpcCode.Symlink ∧ ∃ r, m.body = MsgBody.req (ReqHeader.symlinkReq r))

/-- A message of one of the six mutating operations whose handler consults
the retry machinery, carrying the request header its handler expects. -/
def mutWellFormed (m : Message) : Prop :=
  (m.code = RpcCode.CreateFile ∧ ∃ r, m.body = MsgBody.req (ReqHeader.createFileReq r))
  ∨ (m.code = RpcCode.AppendFile ∧ ∃ r, m.body = MsgBody.req (ReqHeader.appendFileReq r))
  ∨ saWellFormed m

/-- A concrete oracle on which every facade call succeeds, for evaluating
the development on closed inputs. -/
def okOracle : FsOracle where
  mkdirR := fun _ _ _ => .ok true
  createR := fun _ _ _ => .ok 0
  statusR := fun k _ => .ok k
  existsR := fun _ _ => .ok true
  deleteR := fun _ _ _ => .ok true
  renameR := fun _ _ _ => .ok true
  setAttrR := fun _ _ _ => .ok ()
  symlinkR := fun _ _ _ _ _ => .ok ()
  appendR := fun _ _ _ => .ok (none, 0)
  addBlockR := fun _ _ _ _ => .ok 0
  completeR := fun _ _ _ _ _ => .ok ()
  listStatusR := fun _ _ => .ok []
  blockLocR := fun _ _ => .ok 0
  masterInfoR := fun _ => .ok 0
  heartbeatR := fun _ _ _ _ _ => .ok 0
  blockReportR := fun _ _ => .ok ()
  mountR := fun _ _ _ _ => .ok ()
  umountR := fun _ _ => .ok ()
  mountPointR := fun _ _ => .ok 0
  mountTableR := fun _ => .ok 0
  curvineUriNew := fun s => .ok s
  pathFromStr := fun s => .ok s

/-- A concrete configuration: leader active, audit enabled, no connection
state, no load service. -/
def baseCfg : Config where
  oracle := okOracle
  active := true
  auditEnabled := true
  connState := none
  loadService := none

/-- An empty handler state with a present, empty retry cache. -/
def emptyState : HState where
  core := { calls := [], retryCache := some [] }
  timeMetric := fun _ => 0
  countMetric := fun _ => 0
  auditLog := []

/-- An empty handler state without a retry cache (`retry_cache: None`). -/
def noCacheState : HState where
  core := { calls := [], retryCache := none }
  timeMetric := fun _ => 0
  countMetric := fun _ => 0
  auditLog := []

/-! ## Helper lemmas -/

theorem FsRetryCache.get_setStatus_self (c : FsRetryCache) (id : Int) (b : Bool) :
    (FsRetryCache.setStatus c id b).get id =
      some (if b then OperationStatus.succeeded else OperationStatus.failed) := by
  induction c with
  | nil => simp [FsRetryCache.setStatus, FsRetryCache.get]
  | cons e t ih =>
    by_cases h : e.1 = id
    · simp [FsRetryCache.setStatus, h, FsRetryCache.get]
    · simp [FsRetryCache.setStatus, h, FsRetryCache.get, ih]

theorem bumpAt_self (f : String → Nat) (lab : String) (d : Nat) :
    bumpAt f lab d lab = f lab + d := by
  simp [bumpAt]

theorem bumpAt_ne (f : String → Nat) (lab : String) (d : Nat) (l : String)
    (h : l ≠ lab) : bumpAt f lab d l = f l := by
  simp [bumpAt, h]

theorem sumOver_cons (a : String) (t : List String) (f : String → Nat) :
    sumOver (a :: t) f = f a + sumOver t f := by
  simp [sumOver]

theorem sumOver_bumpAt_not_mem (L : List String) (f : String → Nat) (lab : String)
    (d : Nat) (h : lab ∉ L) : sumOver L (bumpAt f lab d) = sumOver L f := by
  induction L with
  | nil => simp [sumOver]
  | cons a t ih =>
    have ha : a ≠ lab := fun hh => h (hh ▸ List.mem_cons_self a t)
    have ht : lab ∉ t := fun hh => h (List.mem_cons_of_mem a hh)
    rw [sumOver_cons, sumOver_cons, bumpAt_ne f lab d a ha, ih ht]

theorem sumOver_bumpAt_mem (L : List String) (f : String → Nat) (lab : String)
    (d : Nat) (hnd : L.Nodup) (h : lab ∈ L) :
    sumOver L (bumpAt f lab d) = sumOver L f + d := by
  induction L with
  | nil => simp at h
  | cons a t ih =>
    by_cases heq : lab = a
    · subst heq
      have ht : lab ∉ t := (List.nodup_cons.mp hnd).1
      rw [sumOver_cons, sumOver_cons, bumpAt_self,
        sumOver_bumpAt_not_mem t f lab d ht]
      omega
    · have hmem : lab ∈ t := by
        rcases List.mem_cons.mp h with h1 | h1
        · exact absurd h1 heq
        · exact h1
      have ha : a ≠ lab := fun hh => heq hh.symm
      rw [sumOver_cons, sumOver_cons, bumpAt_ne f lab d a ha,
        ih (List.nodup_cons.mp hnd).2 hmem]
      omega

theorem mutCount_append (code : RpcCode) (a b : List FacadeCall) :
    mutCount code (a ++ b) = mutCount code a + mutCount code b := by
  simp [mutCount, List.filter_append]

/-- State shape of `handle` past the leader gate and load routing: metrics
are bumped at the code's label and one audit record is prepended when audit
logging is enabled. -/
theorem handle_state (cfg : Config) (s : HState) (m : Message) (u : Nat)
    (hA : cfg.active = true) (hL : isLoadCode m.code = false) :
    (MasterHandler.handle cfg s m u).2.countMetric
        = bumpAt s.countMetric (codeLabel m.code) 1
      ∧ (MasterHandler.handle cfg s m u).2.timeMetric
        = bumpAt s.timeMetric (codeLabel m.code) u
      ∧ (MasterHandler.handle cfg s m u).2.auditLog.length
        = s.auditLog.length + (if cfg.auditEnabled = true then 1 else 0) := by
  refine ⟨?_, ?_, ?_⟩ <;>
    simp only [MasterHandler.handle, hA, hL, Bool.not_true, RpcContext.new,
      Bool.false_eq_true, reduceIte]
  by_cases h : cfg.auditEnabled <;> simp [h]

/-! ## Claims -/

/-- C3: when the active-master oracle reports inactive, `handle` short-
circuits with a `NotLeader` error carrying the operation code and the client
hostname, no handler runs, and the state — facade trace, retry cache,
metrics, audit log — is unchanged. -/
theorem spec_c3_leader_gate (cfg : Config) (s : HState) (m : Message) (u : Nat)
    (h : cfg.active = false) :
    MasterHandler.handle cfg s m u =
      (Except.error (FsErr.notLeader m.code (MasterHandler.client_ip cfg.connState)), s) := by
  simp [MasterHandler.handle, h, RpcContext.new]

theorem spec_c3_leader_gate_witness :
    ({ baseCfg with active := false } : Config).active = false
      ∧ MasterHandler.handle { baseCfg with active := false } emptyState
          ⟨RpcCode.Delete, 7, MsgBody.req (ReqHeader.deleteReq ⟨"/x", true⟩)⟩ 5
        = (Except.error (FsErr.notLeader RpcCode.Delete
            (MasterHandler.client_ip ({ baseCfg with active := false } : Config).connState)),
           emptyState) :=
  ⟨rfl, spec_c3_leader_gate { baseCfg with active := false } emptyState
    ⟨RpcCode.Delete, 7, MsgBody.req (ReqHeader.deleteReq ⟨"/x", true⟩)⟩ 5 rfl⟩

/-- C2 fails as stated: on the leader-gate path the dispatcher returns a
bare error — not an error-bearing reply message — to its caller. Concretely,
with an inactive leader a `Mkdir` message yields `Err(NotLeader)`. -/
theorem spec_c2_counterexample :
    (MasterHandler.handle { baseCfg with active := false } emptyState
        ⟨RpcCode.Mkdir, 1, MsgBody.req (ReqHeader.mkdirReq ⟨"/a", 0⟩)⟩ 5).1
      = Except.error (FsErr.notLeader RpcCode.Mkdir "") := by
  rfl

/-- C2 (amended): for every message that passes the leader gate and is not
routed to the load sub-service, `handle` returns a reply message and never
an error: any handler error is converted into an error-bearing reply. (The
leader-gate path and the load-service paths return errors directly.) -/
theorem spec_c2_reply_totality (cfg : Config) (s : HState) (m : Message) (u : Nat)
    (hA : cfg.active = true) (hL : isLoadCode m.code = false) :
    ∃ rep, (MasterHandler.handle cfg s m u).1 = Except.ok rep := by
  simp only [MasterHandler.handle, hA, hL, Bool.not_true, Bool.false_eq_true,
    reduceIte]
  rcases (MasterHandler.dispatchCode cfg.oracle s.core (RpcContext.new m) m.code).1
    with e | v
  · exact ⟨m.errorExt e, rfl⟩
  · exact ⟨v, rfl⟩

theorem spec_c2_reply_totality_witness :
    baseCfg.active = true
      ∧ isLoadCode (RpcCode.Mkdir) = false
      ∧ ∃ rep, (MasterHandler.handle baseCfg emptyState
          ⟨RpcCode.Mkdir, 1, MsgBody.req (ReqHeader.mkdirReq ⟨"/a", 0⟩)⟩ 5).1
          = Except.ok rep :=
  ⟨rfl, rfl, spec_c2_reply_totality baseCfg emptyState
    ⟨RpcCode.Mkdir, 1, MsgBody.req (ReqHeader.mkdirReq ⟨"/a", 0⟩)⟩ 5 rfl rfl⟩

/-- C7: a message carrying a code outside the recognized set produces an
`Unsupported` error reply (the `_ => err_box!("Unsupported operation")`
arm), and the path still flows through post-processing: when audit is
enabled, one audit record with `success = false` is emitted, and the
time/count metrics for the stringified unknown code are bumped. -/
theorem spec_c7_unknown_code (cfg : Config) (s : HState) (n : Nat) (id : Int)
    (b : MsgBody) (u : Nat) (hA : cfg.active = true) :
    MasterHandler.handle cfg s ⟨RpcCode.Unknown n, id, b⟩ u =
      (Except.ok (Message.errorExt ⟨RpcCode.Unknown n, id, b⟩
          (FsErr.common "Unsupported operation")),
       { core := s.core,
         timeMetric := bumpAt s.timeMetric ("Unknown" ++ toString n) u,
         countMetric := bumpAt s.countMetric ("Unknown" ++ toString n) 1,
         auditLog :=
           if cfg.auditEnabled then
             { code := RpcCode.Unknown n, primary := none, secondary := none,
               success := false, usedUs := u,
               clientAddr := MasterHandler.client_ip cfg.connState } :: s.auditLog
           else s.auditLog }) := by
  simp [MasterHandler.handle, hA, isLoadCode, MasterHandler.dispatchCode,
    RpcContext.new, codeLabel, auditRecord, resultIsOk]

theorem spec_c7_unknown_code_witness :
    baseCfg.active = true
      ∧ MasterHandler.handle baseCfg emptyState
          ⟨RpcCode.Unknown 99, 1, MsgBody.req (ReqHeader.mkdirReq ⟨"/a", 0⟩)⟩ 5 =
        (Except.ok (Message.errorExt ⟨RpcCode.Unknown 99, 1,
            MsgBody.req (ReqHeader.mkdirReq ⟨"/a", 0⟩)⟩
            (FsErr.common "Unsupported operation")),
         { core := emptyState.core,
           timeMetric := bumpAt emptyState.timeMetric ("Unknown" ++ toString 99) 5,
           countMetric := bumpAt emptyState.countMetric ("Unknown" ++ toString 99) 1,
           auditLog :=
             if baseCfg.auditEnabled then
               { code := RpcCode.Unknown 99, primary := none, secondary := none,
                 success := false, usedUs := 5,
                 clientAddr := MasterHandler.client_ip baseCfg.connState } :: emptyState.auditLog
             else emptyState.auditLog }) :=
  ⟨rfl, spec_c7_unknown_code baseCfg emptyState 99 1
    (MsgBody.req (ReqHeader.mkdirReq ⟨"/a", 0⟩)) 5 rfl⟩

/-- C5: an `AppendFile` message whose request id was already observed by the
retry cache yields the error `"append <path> repeat request"` — shaped by
`handle` into an error-bearing reply — and the handler state is unchanged:
`fs.append_file` is not invoked and the cache is untouched. -/
theorem spec_c5_append_reject (cfg : Config) (s : HState) (c : FsRetryCache)
    (R : Int) (P : String) (o : Nat) (u : Nat) (st : OperationStatus)
    (hA : cfg.active = true)
    (hc : s.core.retryCache = some c)
    (hseen : c.get R = some st) :
    (MasterHandler.handle cfg s ⟨RpcCode.AppendFile, R,
        MsgBody.req (ReqHeader.appendFileReq ⟨P, o⟩)⟩ u).1
      = Except.ok (Message.errorExt
          ⟨RpcCode.AppendFile, R, MsgBody.req (ReqHeader.appendFileReq ⟨P, o⟩)⟩
          (FsErr.common ("append " ++ P ++ " repeat request")))
    ∧ (MasterHandler.handle cfg s ⟨RpcCode.AppendFile, R,
        MsgBody.req (ReqHeader.appendFileReq ⟨P, o⟩)⟩ u).2.core = s.core := by
  obtain ⟨⟨calls, rc⟩, tm, cm, al⟩ := s
  simp only [HState.core, CoreState.retryCache] at hc
  subst hc
  constructor <;>
    simp [MasterHandler.handle, hA, isLoadCode, MasterHandler.dispatchCode,
      MasterHandler.retry_check_append_file, RpcContext.new,
      RpcContext.parseAppendFile, MasterHandler.check_is_retry,
      FsRetryCache.check_is_retry, hseen, Message.errorExt]

theorem spec_c5_append_reject_witness :
    baseCfg.active = true
      ∧ (({ core := { calls := [], retryCache := some [(9, OperationStatus.succeeded)] },
            timeMetric := fun _ => 0, countMetric := fun _ => 0,
            auditLog := [] } : HState)).core.retryCache
          = some [(9, OperationStatus.succeeded)]
      ∧ FsRetryCache.get [(9, OperationStatus.succeeded)] 9
          = some OperationStatus.succeeded
      ∧ ((MasterHandler.handle baseCfg
            { core := { calls := [], retryCache := some [(9, OperationStatus.succeeded)] },
              timeMetric := fun _ => 0, countMetric := fun _ => 0, auditLog := [] }
            ⟨RpcCode.AppendFile, 9, MsgBody.req (ReqHeader.appendFileReq ⟨"/g", 0⟩)⟩ 5).1
          = Except.ok (Message.errorExt
              ⟨RpcCode.AppendFile, 9, MsgBody.req (ReqHeader.appendFileReq ⟨"/g", 0⟩)⟩
              (FsErr.common ("append " ++ "/g" ++ " repeat request")))
        ∧ (MasterHandler.handle baseCfg
            { core := { calls := [], retryCache := some [(9, OperationStatus.succeeded)] },
              timeMetric := fun _ => 0, countMetric := fun _ => 0, auditLog := [] }
            ⟨RpcCode.AppendFile, 9, MsgBody.req (ReqHeader.appendFileReq ⟨"/g", 0⟩)⟩ 5).2.core
          = ({ core := { calls := [], retryCache := some [(9, OperationStatus.succeeded)] },
               timeMetric := fun _ => 0, countMetric := fun _ => 0,
               auditLog := [] } : HState).core) :=
  ⟨rfl, rfl, rfl,
    spec_c5_append_reject baseCfg
      { core := { calls := [], retryCache := some [(9, OperationStatus.succeeded)] },
        timeMetric := fun _ => 0, countMetric := fun _ => 0, auditLog := [] }
      [(9, OperationStatus.succeeded)] 9 "/g" 0 5 OperationStatus.succeeded
      rfl rfl rfl⟩

/-- In every branch of `set_attr_retry_check` the context's audit fields are
returned unchanged: the handler contains no `set_audit` call. -/
theorem set_attr_retry_check_aud (ora : FsOracle) (core : CoreState)
    (ctx : RpcContext) :
    (MasterHandler.set_attr_retry_check ora core ctx).2.1 = ctx.aud := by
  unfold MasterHandler.set_attr_retry_check fsSetAttr
  dsimp only
  repeat' split
  all_goals rfl

/-- C8 fails as stated: dispatching a well-formed `SetAttr` request for path
`"/s"` with audit enabled emits an audit record whose subject fields are
empty — the handler never attaches the request path via `set_audit`. -/
theorem spec_c8_counterexample :
    (MasterHandler.handle baseCfg emptyState
        ⟨RpcCode.SetAttr, 3, MsgBody.req (ReqHeader.setAttrReq ⟨"/s", 0⟩)⟩ 5).2.auditLog
      = [{ code := RpcCode.SetAttr, primary := none, secondary := none,
           success := true, usedUs := 5, clientAddr := "" }] := by
  rfl

/-- C8 (amended): the `SetAttr` handler never calls `set_audit` (in the
source the retry check even precedes header parsing), so the audit record
emitted for a `SetAttr` request carries no subject: both subject fields of
the emitted record are empty. -/
theorem spec_c8_no_audit_subject (cfg : Config) (s : HState) (id : Int)
    (b : MsgBody) (u : Nat) (hA : cfg.active = true)
    (hAud : cfg.auditEnabled = true) :
    ∃ r : AuditRecord,
      (MasterHandler.handle cfg s ⟨RpcCode.SetAttr, id, b⟩ u).2.auditLog
          = r :: s.auditLog
        ∧ r.primary = none ∧ r.secondary = none := by
  simp only [MasterHandler.handle, hA, hAud, isLoadCode, MasterHandler.dispatchCode,
    Bool.not_true, Bool.false_eq_true, reduceIte]
  refine ⟨_, rfl, ?_, ?_⟩ <;>
    simp [auditRecord, set_attr_retry_check_aud, RpcContext.new]

theorem spec_c8_no_audit_subject_witness :
    baseCfg.active = true ∧ baseCfg.auditEnabled = true
      ∧ ∃ r : AuditRecord,
          (MasterHandler.handle baseCfg emptyState
              ⟨RpcCode.SetAttr, 3, MsgBody.req (ReqHeader.setAttrReq ⟨"/s", 0⟩)⟩ 5).2.auditLog
            = r :: emptyState.auditLog
          ∧ r.primary = none ∧ r.secondary = none :=
  ⟨rfl, rfl, spec_c8_no_audit_subject baseCfg emptyState 3
    (MsgBody.req (ReqHeader.setAttrReq ⟨"/s", 0⟩)) 5 rfl rfl⟩

/-- Past the leader gate and load routing, the handler state of `handle` is
the state produced by the dispatched handler. -/
theorem handle_core (cfg : Config) (s : HState) (m : Message) (u : Nat)
    (hA : cfg.active = true) (hL : isLoadCode m.code = false) :
    (MasterHandler.handle cfg s m u).2.core
      = (MasterHandler.dispatchCode cfg.oracle s.core (RpcContext.new m) m.code).2.2 := by
  simp [MasterHandler.handle, hA, hL]

/-- Past the leader gate and load routing, the result of `handle` is the
dispatched handler's response, with errors shaped into error replies. -/
theorem handle_result (cfg : Config) (s : HState) (m : Message) (u : Nat)
    (hA : cfg.active = true) (hL : isLoadCode m.code = false) :
    (MasterHandler.handle cfg s m u).1
      = (match (MasterHandler.dispatchCode cfg.oracle s.core (RpcContext.new m) m.code).1 with
         | .ok v => Except.ok v
         | .error e => Except.ok (m.errorExt e)) := by
  simp [MasterHandler.handle, hA, hL]

/-- C10: when `fs.append_file` fails on a first `AppendFile` attempt, the
error propagates (through `?`) without `set_req_cache` running, so the
cache entry for the id stays at the non-terminal `InProgress`; by contrast,
`create_file0`, `delete0` and `rename0` pass the facade result — success or
failure alike — to `set_req_cache`, leaving a terminal `Succeeded`/`Failed`
entry. -/
theorem spec_c10_append_error_not_recorded (ora : FsOracle)
    (calls : List FacadeCall) (c0 : FsRetryCache) (R : Int) (P : String)
    (o : Nat) (e : FsErr) (pd : DeleteRequest) (pr : RenameRequest)
    (hfresh : c0.get R = none)
    (ha : ora.appendR calls.length P o = Except.error e) :
    MasterHandler.retry_check_append_file ora ⟨calls, some c0⟩
        (RpcContext.new ⟨RpcCode.AppendFile, R,
          MsgBody.req (ReqHeader.appendFileReq ⟨P, o⟩)⟩)
      = (Except.error e, setAudit (some P) none,
         ⟨calls ++ [FacadeCall.appendFile P o],
          some ((R, OperationStatus.inProgress) :: c0)⟩)
    ∧ MasterHandler.create_file0 ora ⟨calls, some c0⟩ R P o
      = (ora.createR calls.length P o,
         ⟨calls ++ [FacadeCall.createWithOpts P o],
          some ((R, if resultIsOk (ora.createR calls.length P o)
                 then OperationStatus.succeeded
                 else OperationStatus.failed) :: c0)⟩)
    ∧ MasterHandler.delete0 ora ⟨calls, some c0⟩ R pd
      = (ora.deleteR calls.length pd.path pd.recursive,
         ⟨calls ++ [FacadeCall.delete pd.path pd.recursive],
          some ((R, if resultIsOk (ora.deleteR calls.length pd.path pd.recursive)
                 then OperationStatus.succeeded
                 else OperationStatus.failed) :: c0)⟩)
    ∧ MasterHandler.rename0 ora ⟨calls, some c0⟩ R pr
      = (ora.renameR calls.length pr.src pr.dst,
         ⟨calls ++ [FacadeCall.rename pr.src pr.dst],
          some ((R, if resultIsOk (ora.renameR calls.length pr.src pr.dst)
                 then OperationStatus.succeeded
                 else OperationStatus.failed) :: c0)⟩) := by
  refine ⟨?_, ?_, ?_, ?_⟩
  · simp [MasterHandler.retry_check_append_file, RpcContext.new,
      RpcContext.parseAppendFile, MasterHandler.check_is_retry,
      FsRetryCache.check_is_retry, hfresh, fsAppendFile, ha, CoreState.push,
      setAudit, ProtoUtils.createOptsFromPb]
  · simp [MasterHandler.create_file0, MasterHandler.check_is_retry,
      FsRetryCache.check_is_retry, hfresh, fsCreateWithOpts, CoreState.push,
      MasterHandler.set_req_cache, FsRetryCache.setStatus]
  · simp [MasterHandler.delete0, MasterHandler.check_is_retry,
      FsRetryCache.check_is_retry, hfresh, fsDelete, CoreState.push,
      MasterHandler.set_req_cache, FsRetryCache.setStatus]
  · simp [MasterHandler.rename0, MasterHandler.check_is_retry,
      FsRetryCache.check_is_retry, hfresh, fsRename, CoreState.push,
      MasterHandler.set_req_cache, FsRetryCache.setStatus]

theorem spec_c10_append_error_not_recorded_witness :
    FsRetryCache.get ([] : FsRetryCache) 5 = none
    ∧ ({ okOracle with appendR := fun _ _ _ => Except.error (FsErr.common "io") }
        : FsOracle).appendR 0 "/p" 0 = Except.error (FsErr.common "io")
    ∧ MasterHandler.retry_check_append_file
        { okOracle with appendR := fun _ _ _ => Except.error (FsErr.common "io") }
        ⟨[], some []⟩
        (RpcContext.new ⟨RpcCode.AppendFile, 5,
          MsgBody.req (ReqHeader.appendFileReq ⟨"/p", 0⟩)⟩)
      = (Except.error (FsErr.common "io"), setAudit (some "/p") none,
         ⟨[FacadeCall.appendFile "/p" 0], some [(5, OperationStatus.inProgress)]⟩) :=
  ⟨rfl, rfl,
    (spec_c10_append_error_not_recorded
      { okOracle with appendR := fun _ _ _ => Except.error (FsErr.common "io") }
      [] [] 5 "/p" 0 (FsErr.common "io") ⟨"/d", true⟩ ⟨"/a", "/b"⟩ rfl rfl).1⟩

/-- C9: with no retry cache (`retry_cache: None`), `check_is_retry` answers
`false` and `set_req_cache` is a no-op for every id, so dispatching the same
well-formed mutating message twice invokes the underlying mutating facade
call twice — the duplicate id is processed as a first attempt. -/
theorem spec_c9_no_cache_no_retry_detection (cfg : Config)
    (calls0 : List FacadeCall) (tm cm : String → Nat) (al : List AuditRecord)
    (m : Message) (u1 u2 : Nat)
    (hA : cfg.active = true) (hwf : mutWellFormed m) :
    (∀ (calls : List FacadeCall) (id : Int),
        MasterHandler.check_is_retry ⟨calls, none⟩ id = (false, ⟨calls, none⟩))
    ∧ (∀ (α : Type) (calls : List FacadeCall) (id : Int) (res : FsResult α),
        MasterHandler.set_req_cache ⟨calls, none⟩ id res = (res, ⟨calls, none⟩))
    ∧ mutCount m.code
        (MasterHandler.handle cfg
          (MasterHandler.handle cfg ⟨⟨calls0, none⟩, tm, cm, al⟩ m u1).2 m u2).2.core.calls
      = mutCount m.code calls0 + 2 := by
  refine ⟨fun calls id => by simp [MasterHandler.check_is_retry],
    fun α calls id res => by simp [MasterHandler.set_req_cache], ?_⟩
  rcases hwf with ⟨hcA, r, hbA⟩ | ⟨hcA, r, hbA⟩ | hsa
  · -- CreateFile
    obtain ⟨c1, id1, b1⟩ := m
    simp only at hcA hbA
    subst hcA; subst hbA
    rcases h1 : cfg.oracle.createR calls0.length r.path r.opts with e1 | v1 <;>
      rcases h2 : cfg.oracle.createR (calls0.length + 1) r.path r.opts with e2 | v2 <;>
      simp [MasterHandler.handle, hA, isLoadCode, MasterHandler.dispatchCode,
        MasterHandler.retry_check_create_file, RpcContext.new,
        RpcContext.parseCreateFile, MasterHandler.create_file0,
        MasterHandler.check_is_retry, fsCreateWithOpts, CoreState.push,
        MasterHandler.set_req_cache, h1, h2, mutCount, isMutCallOf,
        List.filter_append, ProtoUtils.createOptsFromPb]
  · -- AppendFile
    obtain ⟨c1, id1, b1⟩ := m
    simp only at hcA hbA
    subst hcA; subst hbA
    rcases h1 : cfg.oracle.appendR calls0.length r.path r.opts with e1 | v1 <;>
      rcases h2 : cfg.oracle.appendR (calls0.length + 1) r.path r.opts with e2 | v2 <;>
      simp [MasterHandler.handle, hA, isLoadCode, MasterHandler.dispatchCode,
        MasterHandler.retry_check_append_file, RpcContext.new,
        RpcContext.parseAppendFile, MasterHandler.check_is_retry, fsAppendFile,
        CoreState.push, MasterHandler.set_req_cache, h1, h2, mutCount,
        isMutCallOf, List.filter_append, ProtoUtils.createOptsFromPb]
  rcases hsa with ⟨hcA, r, hbA⟩ | ⟨hcA, r, hbA⟩ | ⟨hcA, r, hbA⟩ | ⟨hcA, r, hbA⟩
  · -- Delete
    obtain ⟨c1, id1, b1⟩ := m
    simp only at hcA hbA
    subst hcA; subst hbA
    rcases h1 : cfg.oracle.deleteR calls0.length r.path r.recursive with e1 | v1 <;>
      rcases h2 : cfg.oracle.deleteR (calls0.length + 1) r.path r.recursive with e2 | v2 <;>
      simp [MasterHandler.handle, hA, isLoadCode, MasterHandler.dispatchCode,
        MasterHandler.retry_check_delete, RpcContext.new, RpcContext.parseDelete,
        MasterHandler.delete0, MasterHandler.check_is_retry, fsDelete,
        CoreState.push, MasterHandler.set_req_cache, h1, h2, mutCount,
        isMutCallOf, List.filter_append]
  · -- Rename
    obtain ⟨c1, id1, b1⟩ := m
    simp only at hcA hbA
    subst hcA; subst hbA
    rcases h1 : cfg.oracle.renameR calls0.length r.src r.dst with e1 | v1 <;>
      rcases h2 : cfg.oracle.renameR (calls0.length + 1) r.src r.dst with e2 | v2 <;>
      simp [MasterHandler.handle, hA, isLoadCode, MasterHandler.dispatchCode,
        MasterHandler.retry_check_rename, RpcContext.new, RpcContext.parseRename,
        MasterHandler.rename0, MasterHandler.check_is_retry, fsRename,
        CoreState.push, MasterHandler.set_req_cache, h1, h2, mutCount,
        isMutCallOf, List.filter_append]
  · -- SetAttr
    obtain ⟨c1, id1, b1⟩ := m
    simp only at hcA hbA
    subst hcA; subst hbA
    rcases h1 : cfg.oracle.setAttrR calls0.length r.path r.opts with e1 | v1 <;>
      rcases h2 : cfg.oracle.setAttrR (calls0.length + 1) r.path r.opts with e2 | v2 <;>
      simp [MasterHandler.handle, hA, isLoadCode, MasterHandler.dispatchCode,
        MasterHandler.set_attr_retry_check, RpcContext.new,
        RpcContext.parseSetAttr, MasterHandler.check_is_retry, fsSetAttr,
        CoreState.push, MasterHandler.set_req_cache, h1, h2, mutCount,
        isMutCallOf, List.filter_append, ProtoUtils.setAttrOptsFromPb]
  · -- Symlink
    obtain ⟨c1, id1, b1⟩ := m
    simp only at hcA hbA
    subst hcA; subst hbA
    rcases h1 : cfg.oracle.symlinkR calls0.length r.target r.link r.force r.mode
        with e1 | v1 <;>
      rcases h2 : cfg.oracle.symlinkR (calls0.length + 1) r.target r.link r.force r.mode
        with e2 | v2 <;>
      simp [MasterHandler.handle, hA, isLoadCode, MasterHandler.dispatchCode,
        MasterHandler.symlink_retry_check, RpcContext.new,
        RpcContext.parseSymlink, MasterHandler.check_is_retry, fsSymlink,
        CoreState.push, MasterHandler.set_req_cache, h1, h2, mutCount,
        isMutCallOf, List.filter_append]

theorem spec_c9_no_cache_no_retry_detection_witness :
    baseCfg.active = true
    ∧ mutWellFormed ⟨RpcCode.Delete, 7, MsgBody.req (ReqHeader.deleteReq ⟨"/x", true⟩)⟩
    ∧ mutCount (⟨RpcCode.Delete, 7,
          MsgBody.req (ReqHeader.deleteReq ⟨"/x", true⟩)⟩ : Message).code
        (MasterHandler.handle baseCfg
          (MasterHandler.handle baseCfg ⟨⟨[], none⟩, fun _ => 0, fun _ => 0, []⟩
            ⟨RpcCode.Delete, 7, MsgBody.req (ReqHeader.deleteReq ⟨"/x", true⟩)⟩ 1).2
          ⟨RpcCode.Delete, 7, MsgBody.req (ReqHeader.deleteReq ⟨"/x", true⟩)⟩ 2).2.core.calls
      = mutCount (⟨RpcCode.Delete, 7,
          MsgBody.req (ReqHeader.deleteReq ⟨"/x", true⟩)⟩ : Message).code [] + 2 :=
  ⟨rfl,
    Or.inr (Or.inr (Or.inl ⟨rfl, ⟨⟨"/x", true⟩, rfl⟩⟩)),
    (spec_c9_no_cache_no_retry_detection baseCfg [] (fun _ => 0) (fun _ => 0) []
      ⟨RpcCode.Delete, 7, MsgBody.req (ReqHeader.deleteReq ⟨"/x", true⟩)⟩ 1 2 rfl
      (Or.inr (Or.inr (Or.inl ⟨rfl, ⟨⟨"/x", true⟩, rfl⟩⟩)))).2.2⟩

/-- C4: after a first successful create for id `R` at path `P`, a second
`CreateFile` message with the same id on `P` calls `create_with_opts`
exactly once in total — the trace of both dispatches is exactly one
`createWithOpts` followed by one `fileStatus` re-query — and the second
reply carries the status returned by `fs.file_status(P)` at retry time
(the oracle's answer at the position of the re-query), not a cached copy of
the first reply. -/
theorem spec_c4_create_status_replay (cfg : Config) (calls0 : List FacadeCall)
    (tm cm : String → Nat) (al : List AuditRecord) (c0 : FsRetryCache)
    (R : Int) (P : String) (o o2 : Nat) (u1 u2 : Nat) (st1 st2 : Nat)
    (hA : cfg.active = true)
    (hfresh : c0.get R = none)
    (h1 : cfg.oracle.createR calls0.length P o = Except.ok st1)
    (h2 : cfg.oracle.statusR (calls0.length + 1) P = Except.ok st2) :
    (MasterHandler.handle cfg
        (MasterHandler.handle cfg ⟨⟨calls0, some c0⟩, tm, cm, al⟩
          ⟨RpcCode.CreateFile, R, MsgBody.req (ReqHeader.createFileReq ⟨P, o⟩)⟩ u1).2
        ⟨RpcCode.CreateFile, R, MsgBody.req (ReqHeader.createFileReq ⟨P, o2⟩)⟩ u2).1
      = Except.ok ⟨RpcCode.CreateFile, R,
          MsgBody.rep (RepHeader.createFileResp (ProtoUtils.fileStatusToPb st2))⟩
    ∧ (MasterHandler.handle cfg
        (MasterHandler.handle cfg ⟨⟨calls0, some c0⟩, tm, cm, al⟩
          ⟨RpcCode.CreateFile, R, MsgBody.req (ReqHeader.createFileReq ⟨P, o⟩)⟩ u1).2
        ⟨RpcCode.CreateFile, R, MsgBody.req (ReqHeader.createFileReq ⟨P, o2⟩)⟩ u2).2.core.calls
      = calls0 ++ [FacadeCall.createWithOpts P o, FacadeCall.fileStatus P] := by
  constructor <;>
    simp [MasterHandler.handle, hA, isLoadCode, MasterHandler.dispatchCode,
      MasterHandler.retry_check_create_file, RpcContext.new,
      RpcContext.parseCreateFile, MasterHandler.create_file0,
      MasterHandler.check_is_retry, FsRetryCache.check_is_retry, hfresh,
      fsCreateWithOpts, fsFileStatus, CoreState.push, MasterHandler.set_req_cache,
      FsRetryCache.setStatus, FsRetryCache.get, resultIsOk, h1, h2,
      RpcContext.response, ProtoUtils.createOptsFromPb, ProtoUtils.fileStatusToPb]

theorem spec_c4_create_status_replay_witness :
    baseCfg.active = true
    ∧ FsRetryCache.get ([] : FsRetryCache) 42 = none
    ∧ baseCfg.oracle.createR 0 "/f" 0 = Except.ok 0
    ∧ baseCfg.oracle.statusR 1 "/f" = Except.ok 1
    ∧ (MasterHandler.handle baseCfg
        (MasterHandler.handle baseCfg ⟨⟨[], some []⟩, fun _ => 0, fun _ => 0, []⟩
          ⟨RpcCode.CreateFile, 42, MsgBody.req (ReqHeader.createFileReq ⟨"/f", 0⟩)⟩ 1).2
        ⟨RpcCode.CreateFile, 42, MsgBody.req (ReqHeader.createFileReq ⟨"/f", 0⟩)⟩ 2).1
      = Except.ok ⟨RpcCode.CreateFile, 42,
          MsgBody.rep (RepHeader.createFileResp (ProtoUtils.fileStatusToPb 1))⟩ :=
  ⟨rfl, rfl, rfl, rfl,
    (spec_c4_create_status_replay baseCfg [] (fun _ => 0) (fun _ => 0) [] [] 42 "/f"
      0 0 1 2 0 1 rfl rfl rfl rfl).1⟩

/-- Folding `handle` over a list of counted dispatches adds the list's
length to the sum of the per-code counters and to the audit log length. -/
theorem dispatchAll_counts (cfg : Config) (hA : cfg.active = true)
    (hAud : cfg.auditEnabled = true) (L : List String) (hnd : L.Nodup) :
    ∀ (ms : List (Message × Nat)) (s : HState),
      (∀ p ∈ ms, isLoadCode p.1.code = false) →
      (∀ p ∈ ms, codeLabel p.1.code ∈ L) →
      sumOver L (dispatchAll cfg s ms).countMetric
          = sumOver L s.countMetric + ms.length
        ∧ (dispatchAll cfg s ms).auditLog.length
          = s.auditLog.length + ms.length := by
  intro ms
  induction ms with
  | nil =>
    intro s _ _
    simp [dispatchAll]
  | cons p t ih =>
    intro s hload hmem
    obtain ⟨m, u⟩ := p
    have hl : isLoadCode m.code = false := hload ⟨m, u⟩ (List.mem_cons_self _ _)
    have hmem1 : codeLabel m.code ∈ L := hmem ⟨m, u⟩ (List.mem_cons_self _ _)
    have hst := handle_state cfg s m u hA hl
    have hrec := ih (MasterHandler.handle cfg s m u).2
      (fun q hq => hload q (List.mem_cons_of_mem _ hq))
      (fun q hq => hmem q (List.mem_cons_of_mem _ hq))
    refine ⟨?_, ?_⟩
    · have := hrec.1
      rw [show dispatchAll cfg s ((m, u) :: t)
            = dispatchAll cfg (MasterHandler.handle cfg s m u).2 t from rfl,
        this, hst.1, sumOver_bumpAt_mem L s.countMetric (codeLabel m.code) 1 hnd hmem1]
      simp
      omega
    · have := hrec.2
      rw [show dispatchAll cfg s ((m, u) :: t)
            = dispatchAll cfg (MasterHandler.handle cfg s m u).2 t from rfl,
        this, hst.2.2]
      simp [hAud]
      omega

/-- C6: every message that reaches handler dispatch (leader active, not a
load code) bumps the per-code request count by exactly one and the per-code
time counter by the elapsed microseconds, and emits exactly one audit record
when audit is enabled; consequently, over any such dispatch sequence, the
sum of the per-code counts grows by the number of messages, which equals the
growth of the audit log. -/
theorem spec_c6_metrics_audit_parity (cfg : Config)
    (hA : cfg.active = true) (hAud : cfg.auditEnabled = true) :
    (∀ (s : HState) (m : Message) (u : Nat), isLoadCode m.code = false →
        (MasterHandler.handle cfg s m u).2.countMetric (codeLabel m.code)
            = s.countMetric (codeLabel m.code) + 1
          ∧ (MasterHandler.handle cfg s m u).2.timeMetric (codeLabel m.code)
            = s.timeMetric (codeLabel m.code) + u
          ∧ (MasterHandler.handle cfg s m u).2.auditLog.length
            = s.auditLog.length + 1)
    ∧ ∀ (s : HState) (ms : List (Message × Nat)) (L : List String),
        (∀ p ∈ ms, isLoadCode p.1.code = false) → L.Nodup →
        (∀ p ∈ ms, codeLabel p.1.code ∈ L) →
        sumOver L (dispatchAll cfg s ms).countMetric
            = sumOver L s.countMetric + ms.length
          ∧ (dispatchAll cfg s ms).auditLog.length
            = s.auditLog.length + ms.length := by
  constructor
  · intro s m u hL
    have hst := handle_state cfg s m u hA hL
    refine ⟨?_, ?_, ?_⟩
    · rw [hst.1, bumpAt_self]
    · rw [hst.2.1, bumpAt_self]
    · rw [hst.2.2, hAud]
      simp
  · intro s ms L hload hnd hmem
    exact dispatchAll_counts cfg hA hAud L hnd ms s hload hmem

theorem spec_c6_metrics_audit_parity_witness :
    baseCfg.active = true ∧ baseCfg.auditEnabled = true
    ∧ (∀ p ∈ ([(⟨RpcCode.Mkdir, 1, MsgBody.req (ReqHeader.mkdirReq ⟨"/a", 0⟩)⟩, 3),
          (⟨RpcCode.Exists, 2, MsgBody.req (ReqHeader.existsReq ⟨"/a"⟩)⟩, 4)]
          : List (Message × Nat)),
        isLoadCode p.1.code = false)
    ∧ (["Mkdir", "Exists"] : List String).Nodup
    ∧ (∀ p ∈ ([(⟨RpcCode.Mkdir, 1, MsgBody.req (ReqHeader.mkdirReq ⟨"/a", 0⟩)⟩, 3),
          (⟨RpcCode.Exists, 2, MsgBody.req (ReqHeader.existsReq ⟨"/a"⟩)⟩, 4)]
          : List (Message × Nat)),
        codeLabel p.1.code ∈ (["Mkdir", "Exists"] : List String))
    ∧ sumOver ["Mkdir", "Exists"]
        (dispatchAll baseCfg emptyState
          [(⟨RpcCode.Mkdir, 1, MsgBody.req (ReqHeader.mkdirReq ⟨"/a", 0⟩)⟩, 3),
           (⟨RpcCode.Exists, 2, MsgBody.req (ReqHeader.existsReq ⟨"/a"⟩)⟩, 4)]).countMetric
        = sumOver ["Mkdir", "Exists"] emptyState.countMetric + 2
    ∧ (dispatchAll baseCfg emptyState
        [(⟨RpcCode.Mkdir, 1, MsgBody.req (ReqHeader.mkdirReq ⟨"/a", 0⟩)⟩, 3),
         (⟨RpcCode.Exists, 2, MsgBody.req (ReqHeader.existsReq ⟨"/a"⟩)⟩, 4)]).auditLog.length
        = emptyState.auditLog.length + 2 := by
  have hload : ∀ p ∈ ([(⟨RpcCode.Mkdir, 1, MsgBody.req (ReqHeader.mkdirReq ⟨"/a", 0⟩)⟩, 3),
        (⟨RpcCode.Exists, 2, MsgBody.req (ReqHeader.existsReq ⟨"/a"⟩)⟩, 4)]
        : List (Message × Nat)),
      isLoadCode p.1.code = false := by
    intro p hp
    simp only [List.mem_cons, List.not_mem_nil, or_false] at hp
    rcases hp with rfl | rfl <;> rfl
  have hmem : ∀ p ∈ ([(⟨RpcCode.Mkdir, 1, MsgBody.req (ReqHeader.mkdirReq ⟨"/a", 0⟩)⟩, 3),
        (⟨RpcCode.Exists, 2, MsgBody.req (ReqHeader.existsReq ⟨"/a"⟩)⟩, 4)]
        : List (Message × Nat)),
      codeLabel p.1.code ∈ (["Mkdir", "Exists"] : List String) := by
    intro p hp
    simp only [List.mem_cons, List.not_mem_nil, or_false] at hp
    rcases hp with rfl | rfl <;> decide
  refine ⟨rfl, rfl, hload, by decide, hmem, ?_⟩
  exact (spec_c6_metrics_audit_parity baseCfg rfl rfl).2 emptyState
    [(⟨RpcCode.Mkdir, 1, MsgBody.req (ReqHeader.mkdirReq ⟨"/a", 0⟩)⟩, 3),
     (⟨RpcCode.Exists, 2, MsgBody.req (ReqHeader.existsReq ⟨"/a"⟩)⟩, 4)]
    ["Mkdir", "Exists"] hload (by decide) hmem

/-- C1: for the success-assert operations (`Delete`, `Rename`, `SetAttr`,
`Symlink`), with the retry cache present, dispatching two well-formed
messages with the same request id invokes the operation's mutating facade
call at most once in total; the second dispatch leaves the handler state
untouched and returns a success reply without re-invoking the facade. -/
theorem spec_c1_success_assert_at_most_once (cfg : Config) (s0 : HState)
    (c0 : FsRetryCache) (m1 m2 : Message) (u1 u2 : Nat)
    (hA : cfg.active = true)
    (hc : s0.core.retryCache = some c0)
    (hw1 : saWellFormed m1) (hw2 : saWellFormed m2)
    (hcode : m1.code = m2.code) (hid : m1.reqId = m2.reqId) :
    mutCount m1.code
        (MasterHandler.handle cfg (MasterHandler.handle cfg s0 m1 u1).2 m2 u2).2.core.calls
      ≤ mutCount m1.code s0.core.calls + 1
    ∧ (MasterHandler.handle cfg (MasterHandler.handle cfg s0 m1 u1).2 m2 u2).2.core
      = (MasterHandler.handle cfg s0 m1 u1).2.core
    ∧ ∃ rh, (MasterHandler.handle cfg (MasterHandler.handle cfg s0 m1 u1).2 m2 u2).1
      = Except.ok ⟨m2.code, m2.reqId, MsgBody.rep rh⟩ := by
  obtain ⟨⟨calls0, rc0⟩, tm, cm, al⟩ := s0
  simp only [HState.core, CoreState.retryCache] at hc
  subst hc
  rcases hw1 with ⟨h1, r1, hb1⟩ | ⟨h1, r1, hb1⟩ | ⟨h1, r1, hb1⟩ | ⟨h1, r1, hb1⟩
  · -- m1 is Delete
    rcases hw2 with ⟨h2, r2, hb2⟩ | ⟨h2, r2, hb2⟩ | ⟨h2, r2, hb2⟩ | ⟨h2, r2, hb2⟩
    · obtain ⟨cA, idA, bA⟩ := m1
      obtain ⟨cB, idB, bB⟩ := m2
      simp only at h1 h2 hb1 hb2 hcode hid
      subst h1; subst h2; subst hid; subst hb1; subst hb2
      rcases hg : FsRetryCache.get c0 idA with _ | st
      · rcases hres : cfg.oracle.deleteR calls0.length r1.path r1.recursive
            with e1 | v1 <;>
          (refine ⟨?_, ?_, ⟨RepHeader.deleteResp, ?_⟩⟩ <;>
            simp [MasterHandler.handle, hA, isLoadCode, MasterHandler.dispatchCode,
              MasterHandler.retry_check_delete, RpcContext.new, RpcContext.parseDelete,
              MasterHandler.delete0, MasterHandler.check_is_retry,
              FsRetryCache.check_is_retry, FsRetryCache.setStatus, FsRetryCache.get,
              MasterHandler.set_req_cache, fsDelete, CoreState.push, resultIsOk,
              RpcContext.response, mutCount, isMutCallOf, List.filter_append,
              hg, hres])
      · refine ⟨?_, ?_, ⟨RepHeader.deleteResp, ?_⟩⟩ <;>
          simp [MasterHandler.handle, hA, isLoadCode, MasterHandler.dispatchCode,
            MasterHandler.retry_check_delete, RpcContext.new, RpcContext.parseDelete,
            MasterHandler.delete0, MasterHandler.check_is_retry,
            FsRetryCache.check_is_retry, FsRetryCache.setStatus, FsRetryCache.get,
            MasterHandler.set_req_cache, fsDelete, CoreState.push, resultIsOk,
            RpcContext.response, mutCount, isMutCallOf, List.filter_append,
            hg]
    · exact absurd (h1.symm.trans (hcode.trans h2)) (by decide)
    · exact absurd (h1.symm.trans (hcode.trans h2)) (by decide)
    · exact absurd (h1.symm.trans (hcode.trans h2)) (by decide)
  · -- m1 is Rename
    rcases hw2 with ⟨h2, r2, hb2⟩ | ⟨h2, r2, hb2⟩ | ⟨h2, r2, hb2⟩ | ⟨h2, r2, hb2⟩
    · exact absurd (h1.symm.trans (hcode.trans h2)) (by decide)
    · obtain ⟨cA, idA, bA⟩ := m1
      obtain ⟨cB, idB, bB⟩ := m2
      simp only at h1 h2 hb1 hb2 hcode hid
      subst h1; subst h2; subst hid; subst hb1; subst hb2
      rcases hg : FsRetryCache.get c0 idA with _ | st
      · rcases hres : cfg.oracle.renameR calls0.length r1.src r1.dst with e1 | v1 <;>
          (refine ⟨?_, ?_, ⟨RepHeader.renameResp true, ?_⟩⟩ <;>
            simp [MasterHandler.handle, hA, isLoadCode, MasterHandler.dispatchCode,
              MasterHandler.retry_check_rename, RpcContext.new, RpcContext.parseRename,
              MasterHandler.rename0, MasterHandler.check_is_retry,
              FsRetryCache.check_is_retry, FsRetryCache.setStatus, FsRetryCache.get,
              MasterHandler.set_req_cache, fsRename, CoreState.push, resultIsOk,
              RpcContext.response, mutCount, isMutCallOf, List.filter_append,
              hg, hres])
      · refine ⟨?_, ?_, ⟨RepHeader.renameResp true, ?_⟩⟩ <;>
          simp [MasterHandler.handle, hA, isLoadCode, MasterHandler.dispatchCode,
            MasterHandler.retry_check_rename, RpcContext.new, RpcContext.parseRename,
            MasterHandler.rename0, MasterHandler.check_is_retry,
            FsRetryCache.check_is_retry, FsRetryCache.setStatus, FsRetryCache.get,
            MasterHandler.set_req_cache, fsRename, CoreState.push, resultIsOk,
            RpcContext.response, mutCount, isMutCallOf, List.filter_append,
            hg]
    · exact absurd (h1.symm.trans (hcode.trans h2)) (by decide)
    · exact absurd (h1.symm.trans (hcode.trans h2)) (by decide)
  · -- m1 is SetAttr
    rcases hw2 with ⟨h2, r2, hb2⟩ | ⟨h2, r2, hb2⟩ | ⟨h2, r2, hb2⟩ | ⟨h2, r2, hb2⟩
    · exact absurd (h1.symm.trans (hcode.trans h2)) (by decide)
    · exact absurd (h1.symm.trans (hcode.trans h2)) (by decide)
    · obtain ⟨cA, idA, bA⟩ := m1
      obtain ⟨cB, idB, bB⟩ := m2
      simp only at h1 h2 hb1 hb2 hcode hid
      subst h1; subst h2; subst hid; subst hb1; subst hb2
      rcases hg : FsRetryCache.get c0 idA with _ | st
      · rcases hres : cfg.oracle.setAttrR calls0.length r1.path r1.opts with e1 | v1 <;>
          (refine ⟨?_, ?_, ⟨RepHeader.setAttrResp, ?_⟩⟩ <;>
            simp [MasterHandler.handle, hA, isLoadCode, MasterHandler.dispatchCode,
              MasterHandler.set_attr_retry_check, RpcContext.new,
              RpcContext.parseSetAttr, MasterHandler.check_is_retry,
              FsRetryCache.check_is_retry, FsRetryCache.setStatus, FsRetryCache.get,
              MasterHandler.set_req_cache, fsSetAttr, CoreState.push, resultIsOk,
              RpcContext.response, mutCount, isMutCallOf, List.filter_append,
              ProtoUtils.setAttrOptsFromPb, hg, hres])
      · refine ⟨?_, ?_, ⟨RepHeader.setAttrResp, ?_⟩⟩ <;>
          simp [MasterHandler.handle, hA, isLoadCode, MasterHandler.dispatchCode,
            MasterHandler.set_attr_retry_check, RpcContext.new,
            RpcContext.parseSetAttr, MasterHandler.check_is_retry,
            FsRetryCache.check_is_retry, FsRetryCache.setStatus, FsRetryCache.get,
            MasterHandler.set_req_cache, fsSetAttr, CoreState.push, resultIsOk,
            RpcContext.response, mutCount, isMutCallOf, List.filter_append,
            ProtoUtils.setAttrOptsFromPb, hg]
    · exact absurd (h1.symm.trans (hcode.trans h2)) (by decide)
  · -- m1 is Symlink
    rcases hw2 with ⟨h2, r2, hb2⟩ | ⟨h2, r2, hb2⟩ | ⟨h2, r2, hb2⟩ | ⟨h2, r2, hb2⟩
    · exact absurd (h1.symm.trans (hcode.trans h2)) (by decide)
    · exact absurd (h1.symm.trans (hcode.trans h2)) (by decide)
    · exact absurd (h1.symm.trans (hcode.trans h2)) (by decide)
    · obtain ⟨cA, idA, bA⟩ := m1
      obtain ⟨cB, idB, bB⟩ := m2
      simp only at h1 h2 hb1 hb2 hcode hid
      subst h1; subst h2; subst hid; subst hb1; subst hb2
      rcases hg : FsRetryCache.get c0 idA with _ | st
      · rcases hres : cfg.oracle.symlinkR calls0.length r1.target r1.link r1.force r1.mode
            with e1 | v1 <;>
          (refine ⟨?_, ?_, ⟨RepHeader.symlinkResp, ?_⟩⟩ <;>
            simp [MasterHandler.handle, hA, isLoadCode, MasterHandler.dispatchCode,
              MasterHandler.symlink_retry_check, RpcContext.new,
              RpcContext.parseSymlink, MasterHandler.check_is_retry,
              FsRetryCache.check_is_retry, FsRetryCache.setStatus, FsRetryCache.get,
              MasterHandler.set_req_cache, fsSymlink, CoreState.push, resultIsOk,
              RpcContext.response, mutCount, isMutCallOf, List.filter_append,
              hg, hres])
      · refine ⟨?_, ?_, ⟨RepHeader.symlinkResp, ?_⟩⟩ <;>
          simp [MasterHandler.handle, hA, isLoadCode, MasterHandler.dispatchCode,
            MasterHandler.symlink_retry_check, RpcContext.new,
            RpcContext.parseSymlink, MasterHandler.check_is_retry,
            FsRetryCache.check_is_retry, FsRetryCache.setStatus, FsRetryCache.get,
            MasterHandler.set_req_cache, fsSymlink, CoreState.push, resultIsOk,
            RpcContext.response, mutCount, isMutCallOf, List.filter_append,
            hg]

theorem spec_c1_success_assert_at_most_once_witness :
    baseCfg.active = true
    ∧ (emptyState.core.retryCache = some [])
    ∧ saWellFormed ⟨RpcCode.Delete, 7, MsgBody.req (ReqHeader.deleteReq ⟨"/x", true⟩)⟩
    ∧ mutCount (⟨RpcCode.Delete, 7,
          MsgBody.req (ReqHeader.deleteReq ⟨"/x", true⟩)⟩ : Message).code
        (MasterHandler.handle baseCfg
          (MasterHandler.handle baseCfg emptyState
            ⟨RpcCode.Delete, 7, MsgBody.req (ReqHeader.deleteReq ⟨"/x", true⟩)⟩ 1).2
          ⟨RpcCode.Delete, 7, MsgBody.req (ReqHeader.deleteReq ⟨"/x", true⟩)⟩ 2).2.core.calls
      ≤ mutCount (⟨RpcCode.Delete, 7,
          MsgBody.req (ReqHeader.deleteReq ⟨"/x", true⟩)⟩ : Message).code
          emptyState.core.calls + 1
    ∧ ∃ rh, (MasterHandler.handle baseCfg
          (MasterHandler.handle baseCfg emptyState
            ⟨RpcCode.Delete, 7, MsgBody.req (ReqHeader.deleteReq ⟨"/x", true⟩)⟩ 1).2
          ⟨RpcCode.Delete, 7, MsgBody.req (ReqHeader.deleteReq ⟨"/x", true⟩)⟩ 2).1
        = Except.ok ⟨RpcCode.Delete, 7, MsgBody.rep rh⟩ :=
  ⟨rfl, rfl, Or.inl ⟨rfl, ⟨⟨"/x", true⟩, rfl⟩⟩,
    (spec_c1_success_assert_at_most_once baseCfg emptyState []
      ⟨RpcCode.Delete, 7, MsgBody.req (ReqHeader.deleteReq ⟨"/x", true⟩)⟩
      ⟨RpcCode.Delete, 7, MsgBody.req (ReqHeader.deleteReq ⟨"/x", true⟩)⟩ 1 2
      rfl rfl (Or.inl ⟨rfl, ⟨⟨"/x", true⟩, rfl⟩⟩) (Or.inl ⟨rfl, ⟨⟨"/x", true⟩, rfl⟩⟩)
      rfl rfl).1,
    (spec_c1_success_assert_at_most_once baseCfg emptyState []
      ⟨RpcCode.Delete, 7, MsgBody.req (ReqHeader.deleteReq ⟨"/x", true⟩)⟩
      ⟨RpcCode.Delete, 7, MsgBody.req (ReqHeader.deleteReq ⟨"/x", true⟩)⟩ 1 2
      rfl rfl (Or.inl ⟨rfl, ⟨⟨"/x", true⟩, rfl⟩⟩) (Or.inl ⟨rfl, ⟨⟨"/x", true⟩, rfl⟩⟩)
      rfl rfl).2.2⟩

end Curvine
